import Mathlib

/-!
Verification development for the semantic evaluator of the Ecsact schema
language interpreter (`src/ecsact/interpret/eval.cc`).  The C++ evaluator
consumes parsed statements together with a context stack and mutates a
schema registry.  Pure data is modelled by Lean structures, the registry by
an explicit state record threaded through every evaluator, and the
possibility of a thrown exception or failed assertion (`assoc_ids.at(0)` on
an empty vector, unchecked `std::optional` dereference) by an explicit
`crash` outcome.
-/

namespace EcsactEval

/-- Typed parameter value carried by a statement parameter
(`ecsact_statement_parameter.value`: integer, bool or string). -/
inductive ParamValue
  | int (v : Int)
  | bool (b : Bool)
  | str (s : String)
deriving DecidableEq, Repr

/-- Whether a parameter value is the integer variant. -/
def ParamValue.isInt : ParamValue → Bool
  | .int _ => true
  | _ => false

/-- Whether a parameter value is the bool variant. -/
def ParamValue.isBool : ParamValue → Bool
  | .bool _ => true
  | _ => false

/-- Integer payload of a parameter value, when present. -/
def ParamValue.asInt : ParamValue → Option Int
  | .int v => some v
  | _ => none

/-- Bool payload of a parameter value, when present. -/
def ParamValue.asBool : ParamValue → Option Bool
  | .bool b => some b
  | _ => none

/-- String payload of a parameter value, when present. -/
def ParamValue.asStr : ParamValue → Option String
  | .str s => some s
  | _ => none

/-- One named statement parameter (`ecsact_statement_parameter`). -/
structure Param where
  name : String
  value : ParamValue
deriving DecidableEq, Repr

/-- Statement kinds (`ecsact_statement_type`). -/
inductive StmtType
  | none
  | unknown
  | package
  | importPkg
  | component
  | transient
  | system
  | action
  | enum
  | enumValue
  | builtinTypeField
  | userTypeField
  | entityField
  | systemComponent
  | systemGenerates
  | systemWith
  | entityConstraint
  | systemNotify
  | systemNotifyComponent
deriving DecidableEq, Repr

/-- Builtin field types; only the `ENTITY` sentinel is distinguished, all
other builtins are carried by their numeric code
(`ecsact_builtin_type`, with `ECSACT_ENTITY_TYPE` the sentinel). -/
inductive BuiltinKind
  | entity
  | nonEntity (code : Nat)
deriving DecidableEq, Repr

/-- Field types (`ecsact_field_type`): builtin with array length, enum
reference with array length, or field-index `(composite, field)`. -/
inductive FieldType
  | builtin (b : BuiltinKind) (length : Int)
  | enumRef (enumId : Nat) (length : Int)
  | fieldIndex (compositeId : Nat) (fieldId : Nat)
deriving DecidableEq, Repr

/-- Statement record: the tagged union `ecsact_statement` flattened into a
record; each evaluator reads only the fields its statement kind carries. -/
structure Statement where
  type : StmtType := .none
  params : List Param := []
  /-- Primary name of the statement: component/transient/system/action/enum
  name, import package name, `system_component_statement.component_name`,
  `entity_constraint_statement.constraint_component_name`, or
  `system_notify_component_statement.component_name`. -/
  name : String := ""
  /-- Field name of a field statement (`field_statement.field_name`). -/
  fieldName : String := ""
  /-- Builtin type of a builtin/entity field statement. -/
  fieldBuiltin : BuiltinKind := .nonEntity 0
  /-- Array length of a field statement. -/
  fieldLength : Int := 1
  /-- User type name of a user-type field statement. -/
  userTypeName : String := ""
  /-- Value of an enum-value statement. -/
  enumValue : Int := 0
  /-- Capability of a system-component statement (opaque code). -/
  capability : Nat := 0
  /-- The `with` field name list of a system-component or system-with
  statement. -/
  withFieldNames : List String := []
  /-- Setting name of a notify or notify-component statement. -/
  settingName : String := ""
  /-- The `optional` flag of an entity-constraint statement. -/
  optionalFlag : Bool := false
deriving DecidableEq, Repr

instance : Inhabited Statement := ⟨{}⟩

/-! Typed parameter lookup (`statement_param<T>`).  Faithful to the C++
loops: a parameter whose name differs is skipped (`continue`); a parameter
of matching name whose value has a different type stops the scan (`break`),
returning whatever was recorded so far; a parameter of matching name and
type records its value and the scan continues. -/

/-- Scan aux for `statement_param<int32_t>`: `acc` is the current value of
the C++ `result` local. -/
def statementParamIntGo (pname : String) : List Param → Option Int → Option Int
  | [], acc => acc
  | p :: rest, acc =>
    if p.name ≠ pname then statementParamIntGo pname rest acc
    else
      match p.value with
      | .int v => statementParamIntGo pname rest (some v)
      | _ => acc

/-- Embedding of `statement_param<int32_t>`. -/
def statementParamInt (ps : List Param) (pname : String) : Option Int :=
  statementParamIntGo pname ps none

/-- Scan aux for `statement_param<bool>`. -/
def statementParamBoolGo (pname : String) : List Param → Option Bool → Option Bool
  | [], acc => acc
  | p :: rest, acc =>
    if p.name ≠ pname then statementParamBoolGo pname rest acc
    else
      match p.value with
      | .bool b => statementParamBoolGo pname rest (some b)
      | _ => acc

/-- Embedding of `statement_param<bool>`. -/
def statementParamBool (ps : List Param) (pname : String) : Option Bool :=
  statementParamBoolGo pname ps none

/-- Scan aux for `statement_param<std::string_view>`. -/
def statementParamStrGo (pname : String) : List Param → Option String → Option String
  | [], acc => acc
  | p :: rest, acc =>
    if p.name ≠ pname then statementParamStrGo pname rest acc
    else
      match p.value with
      | .str s => statementParamStrGo pname rest (some s)
      | _ => acc

/-- Embedding of `statement_param<std::string_view>`. -/
def statementParamStr (ps : List Param) (pname : String) : Option String :=
  statementParamStrGo pname ps none

/-- Result of the two-type lookup `statement_param<bool, std::string_view>`. -/
inductive BoolOrStr
  | bool (b : Bool)
  | str (s : String)
deriving DecidableEq, Repr

/-- Embedding of `statement_param<bool, std::string_view>`: try the bool
lookup first, then the string lookup. -/
def statementParamBoolOrStr (ps : List Param) (pname : String) : Option BoolOrStr :=
  match statementParamBool ps pname with
  | some b => some (.bool b)
  | none => (statementParamStr ps pname).map .str

/-- Result of the two-type lookup `statement_param<bool, int32_t>`. -/
inductive BoolOrInt
  | bool (b : Bool)
  | int (v : Int)
deriving DecidableEq, Repr

/-- Embedding of `statement_param<bool, int32_t>`. -/
def statementParamBoolOrInt (ps : List Param) (pname : String) : Option BoolOrInt :=
  match statementParamBool ps pname with
  | some b => some (.bool b)
  | none => (statementParamInt ps pname).map .int

/-! Schema registry state.  The registry lives behind the meta/dynamic
runtime API (an external collaborator of this file's evaluator); it is
modelled as a record of association lists, with a global fresh-id counter
standing for the registry's id allocation.  Every declared entity is
appended, never removed, matching the monotonic registry discipline. -/

/-- Component type markers (`ecsact_component_type`). -/
inductive CompType
  | none
  | stream
  | lazyStream
  | transientMark
deriving DecidableEq, Repr

/-- Parallel execution modes (`ecsact_parallel_execution`). -/
inductive ParExec
  | auto
  | preferred
  | deny
deriving DecidableEq, Repr

/-- Notify settings (`ecsact_system_notify_setting`). -/
inductive NotifyKind
  | always
  | oninit
  | onupdate
  | onchange
  | onremove
deriving DecidableEq, Repr

/-- Generates-block constraint flag (`ECSACT_SYS_GEN_*`). -/
inductive GenFlag
  | required
  | optionalGen
deriving DecidableEq, Repr

/-- A registered package (id and name). -/
structure PkgDecl where
  id : Nat
  name : String
deriving DecidableEq, Repr

/-- A registered component declaration. -/
structure CompDecl where
  pkg : Nat
  id : Nat
  name : String
  ctype : CompType
deriving DecidableEq, Repr

/-- A registered transient / system / action / enum declaration. -/
structure Decl where
  pkg : Nat
  id : Nat
  name : String
deriving DecidableEq, Repr

/-- A registered enum value entry. -/
structure EnumVal where
  enumId : Nat
  value : Int
  name : String
deriving DecidableEq, Repr

/-- A registered field of a composite. -/
structure FieldDecl where
  comp : Nat
  id : Nat
  name : String
  ftype : FieldType
deriving DecidableEq, Repr

/-- A system-wide capability entry. -/
structure CapEntry where
  sys : Nat
  comp : Nat
  cap : Nat
deriving DecidableEq, Repr

/-- A registered association of a system-like with a component-like and its
recorded field-id list. -/
structure AssocEntry where
  sys : Nat
  id : Nat
  comp : Nat
  fields : List Nat
deriving DecidableEq, Repr

/-- An association-scoped capability entry. -/
structure AssocCapEntry where
  sys : Nat
  assoc : Nat
  comp : Nat
  cap : Nat
deriving DecidableEq, Repr

/-- A notify-setting entry of a system-like. -/
structure NotifyEntry where
  sys : Nat
  comp : Nat
  setting : NotifyKind
deriving DecidableEq, Repr

/-- A generates-block of a system-like with its component constraints. -/
structure GenBlock where
  sys : Nat
  id : Nat
  comps : List (Nat × GenFlag)
deriving DecidableEq, Repr

/-- The schema registry state. -/
structure Reg where
  nextId : Nat := 0
  packages : List PkgDecl := []
  pkgDeps : List (Nat × Nat) := []
  components : List CompDecl := []
  transients : List Decl := []
  systems : List Decl := []
  actions : List Decl := []
  enums : List Decl := []
  enumVals : List EnumVal := []
  fields : List FieldDecl := []
  childSystems : List (Nat × Nat) := []
  lazyRates : List (Nat × Int) := []
  parallelModes : List (Nat × ParExec) := []
  capabilities : List CapEntry := []
  assocs : List AssocEntry := []
  assocCaps : List AssocCapEntry := []
  notifies : List NotifyEntry := []
  generates : List GenBlock := []
deriving DecidableEq, Repr

/-! Registry accessors (`ecsact::meta::*`). -/

/-- Name of a package (`ecsact_meta_package_name`). -/
def packageName (reg : Reg) (pkg : Nat) : String :=
  match reg.packages.find? (fun p => p.id == pkg) with
  | some p => p.name
  | none => ""

/-- Dependencies of a package, in registration order
(`ecsact::meta::get_dependencies`). -/
def getDependencies (reg : Reg) (pkg : Nat) : List Nat :=
  (reg.pkgDeps.filter (fun d => d.1 == pkg)).map (fun d => d.2)

/-- Components of a package in registry order
(`ecsact::meta::get_component_ids` plus `component_name`). -/
def componentsOf (reg : Reg) (pkg : Nat) : List CompDecl :=
  reg.components.filter (fun c => c.pkg == pkg)

/-- Transients of a package in registry order. -/
def transientsOf (reg : Reg) (pkg : Nat) : List Decl :=
  reg.transients.filter (fun c => c.pkg == pkg)

/-- Systems of a package in registry order. -/
def systemsOf (reg : Reg) (pkg : Nat) : List Decl :=
  reg.systems.filter (fun c => c.pkg == pkg)

/-- Actions of a package in registry order. -/
def actionsOf (reg : Reg) (pkg : Nat) : List Decl :=
  reg.actions.filter (fun c => c.pkg == pkg)

/-- Enums of a package in registry order. -/
def enumsOf (reg : Reg) (pkg : Nat) : List Decl :=
  reg.enums.filter (fun c => c.pkg == pkg)

/-- Fields of a composite in registry order
(`ecsact::meta::get_field_ids` plus `field_name` / `get_field_type`). -/
def fieldsOf (reg : Reg) (comp : Nat) : List FieldDecl :=
  reg.fields.filter (fun f => f.comp == comp)

/-- Name of a field id on a composite (`ecsact::meta::field_name`). -/
def fieldNameOf (reg : Reg) (comp : Nat) (fid : Nat) : String :=
  match (fieldsOf reg comp).find? (fun f => f.id == fid) with
  | some f => f.name
  | none => ""

/-- System-wide capability map of a system-like, in registration order
(`ecsact::meta::system_capabilities`). -/
def systemCapabilities (reg : Reg) (sys : Nat) : List CapEntry :=
  reg.capabilities.filter (fun c => c.sys == sys)

/-- Association-scoped capability map
(`ecsact::meta::system_assoc_capabilities`). -/
def systemAssocCapabilities (reg : Reg) (sys : Nat) (assoc : Nat) : List AssocCapEntry :=
  reg.assocCaps.filter (fun c => c.sys == sys && c.assoc == assoc)

/-- Notify settings of a system-like
(`ecsact::meta::system_notify_settings`). -/
def systemNotifySettings (reg : Reg) (sys : Nat) : List NotifyEntry :=
  reg.notifies.filter (fun n => n.sys == sys)

/-- Generates-block ids of a system-like
(`ecsact::meta::get_system_generates_ids`). -/
def systemGeneratesIds (reg : Reg) (sys : Nat) : List Nat :=
  (reg.generates.filter (fun g => g.sys == sys)).map (fun g => g.id)

/-- Component constraints of a generates-block
(`ecsact::meta::get_system_generates_components`). -/
def systemGeneratesComponents (reg : Reg) (sys : Nat) (genId : Nat) : List (Nat × GenFlag) :=
  match reg.generates.find? (fun g => g.sys == sys && g.id == genId) with
  | some g => g.comps
  | none => []

/-! Registry mutators (`ecsact_*` dynamic API). -/

/-- Embedding of `ecsact_add_dependency`. -/
def addDependency (reg : Reg) (pkg dep : Nat) : Reg :=
  { reg with pkgDeps := reg.pkgDeps ++ [(pkg, dep)] }

/-- Embedding of `ecsact_create_component` (type set separately). -/
def createComponent (reg : Reg) (pkg : Nat) (name : String) : Nat × Reg :=
  (reg.nextId,
   { reg with
     nextId := reg.nextId + 1
     components := reg.components ++ [⟨pkg, reg.nextId, name, .none⟩] })

/-- Embedding of `ecsact_set_component_type`. -/
def setComponentType (reg : Reg) (cid : Nat) (ct : CompType) : Reg :=
  { reg with
    components := reg.components.map
      (fun c => if c.id == cid then { c with ctype := ct } else c) }

/-- Embedding of `ecsact_create_transient`. -/
def createTransient (reg : Reg) (pkg : Nat) (name : String) : Nat × Reg :=
  (reg.nextId,
   { reg with
     nextId := reg.nextId + 1
     transients := reg.transients ++ [⟨pkg, reg.nextId, name⟩] })

/-- Embedding of `ecsact_create_system`. -/
def createSystem (reg : Reg) (pkg : Nat) (name : String) : Nat × Reg :=
  (reg.nextId,
   { reg with
     nextId := reg.nextId + 1
     systems := reg.systems ++ [⟨pkg, reg.nextId, name⟩] })

/-- Embedding of `ecsact_create_action`. -/
def createAction (reg : Reg) (pkg : Nat) (name : String) : Nat × Reg :=
  (reg.nextId,
   { reg with
     nextId := reg.nextId + 1
     actions := reg.actions ++ [⟨pkg, reg.nextId, name⟩] })

/-- Embedding of `ecsact_create_enum`. -/
def createEnum (reg : Reg) (pkg : Nat) (name : String) : Nat × Reg :=
  (reg.nextId,
   { reg with
     nextId := reg.nextId + 1
     enums := reg.enums ++ [⟨pkg, reg.nextId, name⟩] })

/-- Embedding of `ecsact_add_enum_value`. -/
def addEnumValue (reg : Reg) (eid : Nat) (value : Int) (name : String) : Reg :=
  { reg with enumVals := reg.enumVals ++ [⟨eid, value, name⟩] }

/-- Embedding of `ecsact_add_field`. -/
def addField (reg : Reg) (comp : Nat) (ftype : FieldType) (name : String) : Reg :=
  { reg with
    nextId := reg.nextId + 1
    fields := reg.fields ++ [⟨comp, reg.nextId, name, ftype⟩] }

/-- Embedding of `ecsact_add_child_system`. -/
def addChildSystem (reg : Reg) (parent child : Nat) : Reg :=
  { reg with childSystems := reg.childSystems ++ [(parent, child)] }

/-- Embedding of `ecsact_set_system_lazy_iteration_rate`. -/
def setSystemLazyRate (reg : Reg) (sys : Nat) (rate : Int) : Reg :=
  { reg with lazyRates := reg.lazyRates ++ [(sys, rate)] }

/-- Embedding of `ecsact_set_system_parallel_execution`. -/
def setSystemParallel (reg : Reg) (sys : Nat) (p : ParExec) : Reg :=
  { reg with parallelModes := reg.parallelModes ++ [(sys, p)] }

/-- Embedding of `ecsact_set_system_capability`. -/
def setSystemCapability (reg : Reg) (sys comp cap : Nat) : Reg :=
  { reg with capabilities := reg.capabilities ++ [⟨sys, comp, cap⟩] }

/-- Embedding of `ecsact_add_system_assoc`: creates an association with an
empty field list and returns its fresh id. -/
def addSystemAssoc (reg : Reg) (sys comp : Nat) : Nat × Reg :=
  (reg.nextId,
   { reg with
     nextId := reg.nextId + 1
     assocs := reg.assocs ++ [⟨sys, reg.nextId, comp, []⟩] })

/-- Embedding of `ecsact_add_system_assoc_field`: appends a field id to the
named association's recorded field list. -/
def addSystemAssocField (reg : Reg) (sys assocId fid : Nat) : Reg :=
  { reg with
    assocs := reg.assocs.map
      (fun a =>
        if a.sys == sys && a.id == assocId then { a with fields := a.fields ++ [fid] }
        else a) }

/-- Embedding of `ecsact_set_system_assoc_capability`. -/
def setSystemAssocCapability (reg : Reg) (sys assocId comp cap : Nat) : Reg :=
  { reg with assocCaps := reg.assocCaps ++ [⟨sys, assocId, comp, cap⟩] }

/-- Embedding of `ecsact_set_system_notify_component_setting`. -/
def setNotifyComponentSetting (reg : Reg) (sys comp : Nat) (ns : NotifyKind) : Reg :=
  { reg with notifies := reg.notifies ++ [⟨sys, comp, ns⟩] }

/-- Embedding of `ecsact_add_system_generates`: creates an empty
generates-block and returns its fresh id. -/
def addSystemGenerates (reg : Reg) (sys : Nat) : Nat × Reg :=
  (reg.nextId,
   { reg with
     nextId := reg.nextId + 1
     generates := reg.generates ++ [⟨sys, reg.nextId, []⟩] })

/-- Embedding of `ecsact_system_generates_set_component`. -/
def generatesSetComponent (reg : Reg) (sys genId comp : Nat) (flag : GenFlag) : Reg :=
  { reg with
    generates := reg.generates.map
      (fun g =>
        if g.sys == sys && g.id == genId then { g with comps := g.comps ++ [(comp, flag)] }
        else g) }

/-! Name resolution (`find_by_name<T>` specialisations).  The component,
transient and enum specialisations try, per declaration of the given
package in order, the bare name and then the `this_package.Name` qualified
form, and afterwards each dependency's `dep_name.Name` form.  The system
and action specialisations compare the bare declared name only. -/

/-- Shared lookup shape of the component/transient/enum specialisations:
`own` is the `(id, name)` list of this package's declarations, `deps` the
`(dep_name, (id, name) list)` list of the dependencies. -/
def findDeclIn (pkgName : String) (own : List (Nat × String))
    (deps : List (String × List (Nat × String))) (lookup : String) : Option Nat :=
  match own.find? (fun e => lookup == e.2 || lookup == pkgName ++ "." ++ e.2) with
  | some e => some e.1
  | none =>
    deps.findSome? (fun d =>
      (d.2.find? (fun e => lookup == d.1 ++ "." ++ e.2)).map (fun e => e.1))

/-- Embedding of `find_by_name<ecsact_component_id>`. -/
def findComponentIdByName (reg : Reg) (pkg : Nat) (lookup : String) : Option Nat :=
  findDeclIn (packageName reg pkg)
    ((componentsOf reg pkg).map (fun c => (c.id, c.name)))
    ((getDependencies reg pkg).map (fun d =>
      (packageName reg d, (componentsOf reg d).map (fun c => (c.id, c.name)))))
    lookup

/-- Embedding of `find_by_name<ecsact_transient_id>`. -/
def findTransientIdByName (reg : Reg) (pkg : Nat) (lookup : String) : Option Nat :=
  findDeclIn (packageName reg pkg)
    ((transientsOf reg pkg).map (fun c => (c.id, c.name)))
    ((getDependencies reg pkg).map (fun d =>
      (packageName reg d, (transientsOf reg d).map (fun c => (c.id, c.name)))))
    lookup

/-- Embedding of `find_by_name<ecsact_enum_id>`. -/
def findEnumIdByName (reg : Reg) (pkg : Nat) (lookup : String) : Option Nat :=
  findDeclIn (packageName reg pkg)
    ((enumsOf reg pkg).map (fun c => (c.id, c.name)))
    ((getDependencies reg pkg).map (fun d =>
      (packageName reg d, (enumsOf reg d).map (fun c => (c.id, c.name)))))
    lookup

/-- Embedding of `find_by_name<ecsact_system_id>`: bare-name comparison
against this package's systems only. -/
def findSystemIdByName (reg : Reg) (pkg : Nat) (lookup : String) : Option Nat :=
  ((systemsOf reg pkg).find? (fun s => lookup == s.name)).map (fun s => s.id)

/-- Embedding of `find_by_name<ecsact_action_id>`: bare-name comparison
against this package's actions only. -/
def findActionIdByName (reg : Reg) (pkg : Nat) (lookup : String) : Option Nat :=
  ((actionsOf reg pkg).find? (fun s => lookup == s.name)).map (fun s => s.id)

/-- Embedding of `find_by_name<ecsact_composite_id>`:
component, then transient, then action. -/
def findCompositeIdByName (reg : Reg) (pkg : Nat) (lookup : String) : Option Nat :=
  match findComponentIdByName reg pkg lookup with
  | some i => some i
  | none =>
    match findTransientIdByName reg pkg lookup with
    | some i => some i
    | none => findActionIdByName reg pkg lookup

/-- Embedding of `find_by_name<ecsact_decl_id>`:
component, transient, system, then action (cross-kind collision check). -/
def findDeclIdByName (reg : Reg) (pkg : Nat) (lookup : String) : Option Nat :=
  match findComponentIdByName reg pkg lookup with
  | some i => some i
  | none =>
    match findTransientIdByName reg pkg lookup with
    | some i => some i
    | none =>
      match findSystemIdByName reg pkg lookup with
      | some i => some i
      | none => findActionIdByName reg pkg lookup

/-- Embedding of `find_by_name<ecsact_component_like_id>`:
component then transient. -/
def findComponentLikeIdByName (reg : Reg) (pkg : Nat) (lookup : String) : Option Nat :=
  match findComponentIdByName reg pkg lookup with
  | some i => some i
  | none => findTransientIdByName reg pkg lookup

/-- Embedding of `find_by_statement<ecsact_composite_id>`. -/
def findCompositeIdByStatement (reg : Reg) (pkg : Nat) (stmt : Statement) : Option Nat :=
  match stmt.type with
  | .component => findComponentIdByName reg pkg stmt.name
  | .transient => findTransientIdByName reg pkg stmt.name
  | .action => findActionIdByName reg pkg stmt.name
  | _ => none

/-- Embedding of `find_by_statement<ecsact_component_like_id>`. -/
def findComponentLikeIdByStatement (reg : Reg) (pkg : Nat) (stmt : Statement) : Option Nat :=
  match stmt.type with
  | .component => findComponentIdByName reg pkg stmt.name
  | .transient => findTransientIdByName reg pkg stmt.name
  | .systemComponent => findComponentLikeIdByName reg pkg stmt.name
  | _ => none

/-- Embedding of `find_by_statement<ecsact_system_like_id>`. -/
def findSystemLikeIdByStatement (reg : Reg) (pkg : Nat) (stmt : Statement) : Option Nat :=
  match stmt.type with
  | .system => findSystemIdByName reg pkg stmt.name
  | .action => findActionIdByName reg pkg stmt.name
  | _ => none

/-- Embedding of `find_field_by_name`: field id by name on a composite. -/
def findFieldByName (reg : Reg) (comp : Nat) (target : String) : Option Nat :=
  ((fieldsOf reg comp).find? (fun f => f.name == target)).map (fun f => f.id)

/-- Embedding of `find_user_field_type_by_name`: an enum reference. -/
def findUserFieldTypeByName (reg : Reg) (pkg : Nat) (userTypeName : String)
    (length : Int) : Option FieldType :=
  match findEnumIdByName reg pkg userTypeName with
  | some eid => some (.enumRef eid length)
  | none => none

/-- Splits a character list at its last dot, mirroring
`find_last_of('.')` followed by the two `substr` calls. -/
def splitLastDotAux : List Char → Option (List Char × List Char)
  | [] => none
  | c :: rest =>
    match splitLastDotAux rest with
    | some (l, r) => some (c :: l, r)
    | none => if c == '.' then some ([], rest) else none

/-- Splits a string at its last dot into composite and field parts. -/
def splitLastDot (s : String) : Option (String × String) :=
  (splitLastDotAux s.toList).map (fun p => (String.mk p.1, String.mk p.2))

/-- Embedding of `find_field_by_full_name`: resolve `composite.field` into a
field-index field type. -/
def findFieldByFullName (reg : Reg) (pkg : Nat) (fullName : String) : Option FieldType :=
  match splitLastDot fullName with
  | none => none
  | some (compositeName, fieldName) =>
    match findCompositeIdByName reg pkg compositeName with
    | none => none
    | some cid =>
      match findFieldByName reg cid fieldName with
      | none => none
      | some fid => some (.fieldIndex cid fid)

/-! Error codes, evaluation outcomes, context matcher, parameter
validators. -/

/-- Evaluation error codes (`ecsact_eval_error_code`); `ok` is
`ECSACT_EVAL_OK`. -/
inductive EvalErrCode
  | ok
  | invalidContext
  | unexpectedStatement
  | unknownImport
  | declarationNameTaken
  | fieldNameAlreadyExists
  | unknownFieldType
  | ambiguousFieldType
  | unknownFieldName
  | invalidAssocFieldType
  | unknownComponentType
  | unknownComponentLikeType
  | multipleCapabilitiesSameComponentLike
  | nestedAssoc
  | sameFieldsSystemAssociation
  | notifyBeforeSystemComponent
  | notifyBlockAndComponents
  | multipleNotifyStatements
  | duplicateNotifyComponent
  | invalidNotifySetting
  | onlyOneGeneratesBlockAllowed
  | generatesDuplicateComponentConstraints
  | noCapabilities
  | parametersNotAllowed
  | unknownParameterName
  | invalidParameterValue
  | internalErr
deriving DecidableEq, Repr

/-- Outcome of evaluating one statement: either a returned error value
(`ecsact_eval_error`, carrying the registry state after any mutations the
evaluator performed before returning), or a crash — the evaluator threw an
exception or tripped undefined behaviour (`std::vector::at` on an empty
vector, dereferencing an empty `std::optional`). -/
inductive EvalStep
  | ret (e : EvalErrCode) (reg : Reg)
  | crash
deriving DecidableEq, Repr

/-- Embedding of `expect_context`: returns the top-of-stack statement (when
the stack is non-empty) together with `ok` when the top's type — or, for an
empty stack, the `NONE` sentinel — is among the allowed types, and
`INVALID_CONTEXT` otherwise. -/
def expectContext (ctx : List Statement) (allowed : List StmtType) :
    Option Statement × EvalErrCode :=
  match ctx.getLast? with
  | none =>
    if allowed.contains .none then (none, .ok) else (none, .invalidContext)
  | some c =>
    if allowed.contains c.type then (some c, .ok) else (some c, .invalidContext)

/-- Embedding of `allow_statement_params`: rejects any parameter when the
allow list is empty, and the first parameter whose name is not allowed. -/
def allowStatementParams (stmt : Statement) (allowed : List String) :
    Option EvalErrCode :=
  if allowed.isEmpty && !stmt.params.isEmpty then some .parametersNotAllowed
  else
    match stmt.params.find? (fun p => !(allowed.contains p.name)) with
    | some _ => some .unknownParameterName
    | none => none

/-- Embedding of `disallow_statement_params`. -/
def disallowStatementParams (stmt : Statement) : Option EvalErrCode :=
  allowStatementParams stmt []

/-- Embedding of `parallel_param`: bool true is PREFERRED, bool false is
DENY, strings from the allowed set map to their mode, any other string is
`INVALID_PARAMETER_VALUE`, absence is AUTO. -/
def parallelParam (stmt : Statement) : Sum ParExec EvalErrCode :=
  match statementParamBoolOrStr stmt.params "parallel" with
  | none => .inl .auto
  | some (.bool b) => .inl (if b then .preferred else .deny)
  | some (.str s) =>
    if s == "auto" then .inl .auto
    else if s == "preferred" then .inl .preferred
    else if s == "deny" then .inl .deny
    else .inr .invalidParameterValue

/-- Embedding of `get_notify_setting_from_string`. -/
def getNotifySettingFromString (s : String) : Option NotifyKind :=
  if s == "always" then some .always
  else if s == "oninit" then some .oninit
  else if s == "onupdate" then some .onupdate
  else if s == "onchange" then some .onchange
  else if s == "onremove" then some .onremove
  else none

/-! Statement dispatchers.  Each mirrors the corresponding
`eval_*_statement` function: same check order, same error codes, same
registry mutations.  In the C++ the successful-error-check context pointer
is dereferenced without a null check in several places; those dereferences
are modelled as `crash` (they are unreachable when the allowed-type list
excludes the `NONE` sentinel). -/

/-- Embedding of `eval_none_statement`. -/
def evalNoneStatement (reg : Reg) (_pkg : Nat) (_ctx : List Statement)
    (_stmt : Statement) : EvalStep :=
  .ret .ok reg

/-- Embedding of `eval_unknown_statement`. -/
def evalUnknownStatement (reg : Reg) (_pkg : Nat) (_ctx : List Statement)
    (_stmt : Statement) : EvalStep :=
  .ret .ok reg

/-- Embedding of `eval_import_statement`. -/
def evalImportStatement (reg : Reg) (pkg : Nat) (ctx : List Statement)
    (stmt : Statement) : EvalStep :=
  match expectContext ctx [.none] with
  | (_, .ok) =>
    match disallowStatementParams stmt with
    | some e => .ret e reg
    | none =>
      match reg.packages.find? (fun p => !(p.id == pkg) && p.name == stmt.name) with
      | some p => .ret .ok (addDependency reg pkg p.id)
      | none => .ret .unknownImport reg
  | (_, e) => .ret e reg

/-- Embedding of `eval_component_statement`. -/
def evalComponentStatement (reg : Reg) (pkg : Nat) (ctx : List Statement)
    (stmt : Statement) : EvalStep :=
  match expectContext ctx [.none] with
  | (_, .ok) =>
    match allowStatementParams stmt ["stream", "transient"] with
    | some e => .ret e reg
    | none =>
      let streamParam := statementParamBoolOrStr stmt.params "stream"
      let transientParam := statementParamBool stmt.params "transient"
      let ctypeFromStream : Sum CompType EvalErrCode :=
        match streamParam with
        | some (.str s) =>
          if s ≠ "lazy" then .inr .invalidParameterValue else .inl .lazyStream
        | some (.bool b) => .inl (if b then .stream else .none)
        | none => .inl .none
      match ctypeFromStream with
      | .inr e => .ret e reg
      | .inl ct0 =>
        let ctypeFinal : Sum CompType EvalErrCode :=
          match transientParam with
          | some true =>
            if ct0 ≠ .none then .inr .invalidParameterValue else .inl .transientMark
          | _ => .inl ct0
        match ctypeFinal with
        | .inr e => .ret e reg
        | .inl ct =>
          match findDeclIdByName reg pkg stmt.name with
          | some _ => .ret .declarationNameTaken reg
          | none =>
            let (cid, reg1) := createComponent reg pkg stmt.name
            .ret .ok (setComponentType reg1 cid ct)
  | (_, e) => .ret e reg

/-- Embedding of `eval_transient_statement`. -/
def evalTransientStatement (reg : Reg) (pkg : Nat) (ctx : List Statement)
    (stmt : Statement) : EvalStep :=
  match expectContext ctx [.none] with
  | (_, .ok) =>
    match disallowStatementParams stmt with
    | some e => .ret e reg
    | none =>
      match findDeclIdByName reg pkg stmt.name with
      | some _ => .ret .declarationNameTaken reg
      | none => .ret .ok (createTransient reg pkg stmt.name).2
  | (_, e) => .ret e reg

/-- Embedding of `eval_system_statement`. -/
def evalSystemStatement (reg : Reg) (pkg : Nat) (ctx : List Statement)
    (stmt : Statement) : EvalStep :=
  match expectContext ctx [.none, .system, .action] with
  | (context, .ok) =>
    match allowStatementParams stmt ["lazy", "parallel"] with
    | some e => .ret e reg
    | none =>
      let lazyValue : Int :=
        match statementParamBoolOrInt stmt.params "lazy" with
        | none => 0
        | some (.bool b) => if b then 1 else 0
        | some (.int v) => v
      let parentResult : Sum (Option Nat) EvalErrCode :=
        match context with
        | none => .inl none
        | some c =>
          match findSystemLikeIdByStatement reg pkg c with
          | none => .inr .invalidContext
          | some p => .inl (some p)
      match parentResult with
      | .inr e => .ret e reg
      | .inl parent =>
        match findDeclIdByName reg pkg stmt.name with
        | some _ => .ret .declarationNameTaken reg
        | none =>
          let (sid, reg1) := createSystem reg pkg stmt.name
          let reg2 :=
            match parent with
            | some p => addChildSystem reg1 p sid
            | none => reg1
          let reg3 := if lazyValue > 0 then setSystemLazyRate reg2 sid lazyValue else reg2
          match parallelParam stmt with
          | .inr e => .ret e reg3
          | .inl p => .ret .ok (setSystemParallel reg3 sid p)
  | (_, e) => .ret e reg

/-- Embedding of `eval_action_statement`. -/
def evalActionStatement (reg : Reg) (pkg : Nat) (ctx : List Statement)
    (stmt : Statement) : EvalStep :=
  match expectContext ctx [.none] with
  | (_, .ok) =>
    match allowStatementParams stmt ["parallel"] with
    | some e => .ret e reg
    | none =>
      match findDeclIdByName reg pkg stmt.name with
      | some _ => .ret .declarationNameTaken reg
      | none =>
        let (aid, reg1) := createAction reg pkg stmt.name
        match parallelParam stmt with
        | .inr e => .ret e reg1
        | .inl p => .ret .ok (setSystemParallel reg1 aid p)
  | (_, e) => .ret e reg

/-- Embedding of `eval_enum_statement`. -/
def evalEnumStatement (reg : Reg) (pkg : Nat) (ctx : List Statement)
    (stmt : Statement) : EvalStep :=
  match expectContext ctx [.none] with
  | (_, .ok) =>
    match disallowStatementParams stmt with
    | some e => .ret e reg
    | none =>
      match findDeclIdByName reg pkg stmt.name with
      | some _ => .ret .declarationNameTaken reg
      | none => .ret .ok (createEnum reg pkg stmt.name).2
  | (_, e) => .ret e reg

/-- Embedding of `eval_enum_value_statement`. -/
def evalEnumValueStatement (reg : Reg) (pkg : Nat) (ctx : List Statement)
    (stmt : Statement) : EvalStep :=
  match expectContext ctx [.enum] with
  | (some c, .ok) =>
    match disallowStatementParams stmt with
    | some e => .ret e reg
    | none =>
      match findEnumIdByName reg pkg c.name with
      | none => .ret .invalidContext reg
      | some eid => .ret .ok (addEnumValue reg eid stmt.enumValue stmt.name)
  | (none, .ok) => .crash
  | (_, e) => .ret e reg

/-- Embedding of `eval_builtin_type_field_statement`. -/
def evalBuiltinTypeFieldStatement (reg : Reg) (pkg : Nat) (ctx : List Statement)
    (stmt : Statement) : EvalStep :=
  match expectContext ctx [.component, .transient, .action] with
  | (some c, .ok) =>
    match disallowStatementParams stmt with
    | some e => .ret e reg
    | none =>
      match findCompositeIdByStatement reg pkg c with
      | none => .ret .invalidContext reg
      | some cid =>
        if (fieldsOf reg cid).any (fun f => f.name == stmt.fieldName) then
          .ret .fieldNameAlreadyExists reg
        else
          .ret .ok (addField reg cid (.builtin stmt.fieldBuiltin stmt.fieldLength) stmt.fieldName)
  | (none, .ok) => .crash
  | (_, e) => .ret e reg

/-- Embedding of `eval_user_type_field_statement`. -/
def evalUserTypeFieldStatement (reg : Reg) (pkg : Nat) (ctx : List Statement)
    (stmt : Statement) : EvalStep :=
  match expectContext ctx [.component, .transient, .action] with
  | (some c, .ok) =>
    match disallowStatementParams stmt with
    | some e => .ret e reg
    | none =>
      match findCompositeIdByStatement reg pkg c with
      | none => .ret .invalidContext reg
      | some cid =>
        if (fieldsOf reg cid).any (fun f => f.name == stmt.fieldName) then
          .ret .fieldNameAlreadyExists reg
        else
          let userFieldType := findUserFieldTypeByName reg pkg stmt.userTypeName stmt.fieldLength
          let fieldIndexType := findFieldByFullName reg pkg stmt.userTypeName
          match userFieldType, fieldIndexType with
          | none, none => .ret .unknownFieldType reg
          | some _, some _ => .ret .ambiguousFieldType reg
          | some ft, none => .ret .ok (addField reg cid ft stmt.fieldName)
          | none, some ft => .ret .ok (addField reg cid ft stmt.fieldName)
  | (none, .ok) => .crash
  | (_, e) => .ret e reg

/-- Embedding of `eval_entity_field_statement` (delegates to the builtin
field evaluator). -/
def evalEntityFieldStatement (reg : Reg) (pkg : Nat) (ctx : List Statement)
    (stmt : Statement) : EvalStep :=
  evalBuiltinTypeFieldStatement reg pkg ctx stmt

/-! Association machinery (`eval_system_with_statement_data_common`,
`find_assoc_ids_with_fields`) and the system-component dispatcher. -/

/-- Whether a field type is acceptable for an association field: builtin
`ENTITY`, or a field-index.  (Builtin non-entity and enum kinds are
rejected with `INVALID_ASSOC_FIELD_TYPE`.) -/
def validAssocFieldType : FieldType → Bool
  | .builtin b _ => b == .entity
  | .fieldIndex _ _ => true
  | .enumRef _ _ => false

/-- Field-name resolution loop of `eval_system_with_statement_data_common`:
resolves each name on the component-like in order, failing on the first
name that does not resolve (`UNKNOWN_FIELD_NAME`) or whose type is invalid
(`INVALID_ASSOC_FIELD_TYPE`). -/
def resolveAssocFields (reg : Reg) (compLike : Nat) :
    List String → Sum (List Nat) EvalErrCode
  | [] => .inl []
  | n :: rest =>
    match (fieldsOf reg compLike).find? (fun f => f.name == n) with
    | none => .inr .unknownFieldName
    | some f =>
      if validAssocFieldType f.ftype then
        match resolveAssocFields reg compLike rest with
        | .inl ids => .inl (f.id :: ids)
        | .inr e => .inr e
      else .inr .invalidAssocFieldType

/-- Embedding of `eval_system_with_statement_data_common`: resolve the field
names, reject an empty resolved list with `UNEXPECTED_STATEMENT`, then
create the association and attach each resolved field id. -/
def evalSystemWithCommon (reg : Reg) (sysLike compLike : Nat)
    (fieldNames : List String) : EvalErrCode × Reg :=
  match resolveAssocFields reg compLike fieldNames with
  | .inr e => (e, reg)
  | .inl ids =>
    if ids.isEmpty then (.unexpectedStatement, reg)
    else
      let (assocId, reg1) := addSystemAssoc reg sysLike compLike
      (.ok, ids.foldl (fun r fid => addSystemAssocField r sysLike assocId fid) reg1)

/-- Matched-name count of the inner loop of `find_assoc_ids_with_fields`:
walks the association's recorded field names, adding, per field, the number
of target names equal to it, and stopping at the first field matching no
target.  (A field equal to several duplicate targets is counted once per
target, exactly as the C++ pushes it once per matching target.) -/
def matchingLen (names : List String) (targets : List String) : Nat :=
  match names with
  | [] => 0
  | n :: rest =>
    let k := targets.countP (fun t => t == n)
    if k == 0 then 0 else k + matchingLen rest targets

/-- Ordered insertion used to mirror the `std::set` of association ids. -/
def insertSorted (x : Nat) : List Nat → List Nat
  | [] => [x]
  | y :: ys =>
    if x < y then x :: y :: ys
    else if x == y then y :: ys
    else y :: insertSorted x ys

/-- Sorted deduplicated copy of a list, mirroring collection into a
`std::set` followed by copying into a vector. -/
def toSortedSet (l : List Nat) : List Nat :=
  l.foldl (fun acc x => insertSorted x acc) []

/-- Embedding of `find_assoc_ids_with_fields`: associations of the
system-like whose component matches and whose recorded field list matches
the target names per `matchingLen`, collected as a sorted id set. -/
def findAssocIdsWithFields (reg : Reg) (sysLike compLike : Nat)
    (targets : List String) : List Nat :=
  toSortedSet
    (((reg.assocs.filter (fun a => a.sys == sysLike)).filter (fun a =>
        a.comp == compLike &&
        matchingLen (a.fields.map (fieldNameOf reg compLike)) targets ==
          a.fields.length)).map (fun a => a.id))

/-- Outcome of the context-kind switch of
`eval_system_component_statement`: proceed with the located system-like
(still optional in the `SYSTEM`/`ACTION` arm) and optional association id,
fail with an error, or crash (the `assoc_ids.at(0)` call on an empty
vector throwing `std::out_of_range`). -/
inductive ScBranchOut
  | proceed (sysLike : Option Nat) (assocId : Option Nat)
  | fail (e : EvalErrCode)
  | broke
deriving DecidableEq, Repr

/-- Context-kind switch of `eval_system_component_statement` (the large
`switch(context->type)`), given the top-of-stack statement `c`. -/
def scBranch (reg : Reg) (pkg : Nat) (ctx : List Statement) (c : Statement)
    (stmt : Statement) : ScBranchOut :=
  match c.type with
  | .system => .proceed (findSystemLikeIdByStatement reg pkg c) none
  | .action => .proceed (findSystemLikeIdByStatement reg pkg c) none
  | .systemComponent =>
    if ctx.length < 2 then .fail .invalidContext
    else
      match findSystemLikeIdByStatement reg pkg (ctx.getD (ctx.length - 2) default) with
      | none => .fail .invalidContext
      | some s =>
        if !stmt.withFieldNames.isEmpty then .fail .nestedAssoc
        else
          match findComponentLikeIdByStatement reg pkg c with
          | none => .fail .invalidContext
          | some assocComp =>
            if c.withFieldNames.isEmpty then .proceed (some s) none
            else
              let assocIds := findAssocIdsWithFields reg s assocComp c.withFieldNames
              if assocIds.length > 1 then .fail .sameFieldsSystemAssociation
              else
                match assocIds with
                | [] => .broke
                | a :: _ => .proceed (some s) (some a)
  | .systemWith =>
    if ctx.length < 3 then .fail .invalidContext
    else
      match findSystemLikeIdByStatement reg pkg (ctx.getD (ctx.length - 3) default) with
      | none => .fail .invalidContext
      | some s =>
        match findComponentLikeIdByStatement reg pkg (ctx.getD (ctx.length - 2) default) with
        | none => .fail .invalidContext
        | some assocComp =>
          let assocIds := findAssocIdsWithFields reg s assocComp c.withFieldNames
          if assocIds.length > 1 then .fail .sameFieldsSystemAssociation
          else
            match assocIds with
            | [] => .broke
            | a :: _ => .proceed (some s) (some a)
  | _ => .fail .invalidContext

/-- Tail of `eval_system_component_statement` after the context switch:
the notify-ordering check, the optional association creation from the
statement's own `with` list, the duplicate-capability check, and recording
of the capability. -/
def scFinish (reg : Reg) (stmt : Statement) (compLike sysLike : Nat)
    (assocId : Option Nat) : EvalErrCode × Reg :=
  if !(systemNotifySettings reg sysLike).isEmpty then (.notifyBeforeSystemComponent, reg)
  else
    let step :=
      if stmt.withFieldNames.isEmpty then (EvalErrCode.ok, reg)
      else evalSystemWithCommon reg sysLike compLike stmt.withFieldNames
    if step.1 ≠ .ok then step
    else
      let reg1 := step.2
      match assocId with
      | some a =>
        if (systemAssocCapabilities reg1 sysLike a).any (fun x => x.comp == compLike) then
          (.multipleCapabilitiesSameComponentLike, reg1)
        else (.ok, setSystemAssocCapability reg1 sysLike a compLike stmt.capability)
      | none =>
        if (systemCapabilities reg1 sysLike).any (fun x => x.comp == compLike) then
          (.multipleCapabilitiesSameComponentLike, reg1)
        else (.ok, setSystemCapability reg1 sysLike compLike stmt.capability)

/-- Embedding of `eval_system_component_statement`. -/
def evalSystemComponentStatement (reg : Reg) (pkg : Nat) (ctx : List Statement)
    (stmt : Statement) : EvalStep :=
  match expectContext ctx [.system, .action, .systemComponent, .systemWith] with
  | (some c, .ok) =>
    match disallowStatementParams stmt with
    | some e => .ret e reg
    | none =>
      match findComponentLikeIdByName reg pkg stmt.name with
      | none => .ret .unknownComponentLikeType reg
      | some compLike =>
        match scBranch reg pkg ctx c stmt with
        | .fail e => .ret e reg
        | .broke => .crash
        | .proceed sysLikeOpt assocId =>
          match sysLikeOpt with
          | none => .ret .invalidContext reg
          | some s =>
            let out := scFinish reg stmt compLike s assocId
            .ret out.1 out.2
  | (none, .ok) => .crash
  | (_, e) => .ret e reg

/-- Embedding of `eval_system_generates_statement`. -/
def evalSystemGeneratesStatement (reg : Reg) (pkg : Nat) (ctx : List Statement)
    (stmt : Statement) : EvalStep :=
  match expectContext ctx [.system, .action] with
  | (some c, .ok) =>
    match disallowStatementParams stmt with
    | some e => .ret e reg
    | none =>
      match findSystemLikeIdByStatement reg pkg c with
      | none => .ret .invalidContext reg
      | some s =>
        if !(systemGeneratesIds reg s).isEmpty then
          .ret .onlyOneGeneratesBlockAllowed reg
        else
          .ret .ok (addSystemGenerates reg s).2
  | (none, .ok) => .crash
  | (_, e) => .ret e reg

/-- Embedding of `eval_system_with_statement`. -/
def evalSystemWithStatement (reg : Reg) (pkg : Nat) (ctx : List Statement)
    (stmt : Statement) : EvalStep :=
  if ctx.length < 2 then .ret .invalidContext reg
  else
    match expectContext ctx [.systemComponent] with
    | (some c, .ok) =>
      match disallowStatementParams stmt with
      | some e => .ret e reg
      | none =>
        match findSystemLikeIdByStatement reg pkg (ctx.getD (ctx.length - 2) default) with
        | none => .ret .invalidContext reg
        | some s =>
          match findComponentLikeIdByName reg pkg c.name with
          | none => .ret .unknownComponentLikeType reg
          | some compLike =>
            let out := evalSystemWithCommon reg s compLike stmt.withFieldNames
            .ret out.1 out.2
    | (none, .ok) => .crash
    | (_, e) => .ret e reg

/-- Embedding of `eval_system_notify_statement`.  The located system-like
optional is dereferenced without a check in the C++ (`*sys_like_id`);
a context statement naming no registered system-like therefore crashes. -/
def evalSystemNotifyStatement (reg : Reg) (pkg : Nat) (ctx : List Statement)
    (stmt : Statement) : EvalStep :=
  match expectContext ctx [.system, .action] with
  | (some c, .ok) =>
    match disallowStatementParams stmt with
    | some e => .ret e reg
    | none =>
      match findSystemLikeIdByStatement reg pkg c with
      | none => .crash
      | some s =>
        if !(systemNotifySettings reg s).isEmpty then
          .ret .multipleNotifyStatements reg
        else if stmt.settingName ≠ "" then
          match getNotifySettingFromString stmt.settingName with
          | none => .ret .invalidNotifySetting reg
          | some ns =>
            .ret .ok
              ((systemCapabilities reg s).foldl
                (fun r cap => setNotifyComponentSetting r s cap.comp ns) reg)
        else .ret .ok reg
  | (none, .ok) => .crash
  | (_, e) => .ret e reg

/-- Embedding of `eval_system_notify_component_statement`.  The system-like
optional located from the grandparent statement is dereferenced without a
check in the C++; that dereference happens after the block-setting,
component-name and setting-name checks. -/
def evalSystemNotifyComponentStatement (reg : Reg) (pkg : Nat)
    (ctx : List Statement) (stmt : Statement) : EvalStep :=
  if ctx.length < 2 then .ret .invalidContext reg
  else
    match expectContext ctx [.systemNotify] with
    | (some c, .ok) =>
      match disallowStatementParams stmt with
      | some e => .ret e reg
      | none =>
        if c.settingName ≠ "" then .ret .notifyBlockAndComponents reg
        else
          match findComponentLikeIdByName reg pkg stmt.name with
          | none => .ret .unknownComponentLikeType reg
          | some compLike =>
            match getNotifySettingFromString stmt.settingName with
            | none => .ret .invalidNotifySetting reg
            | some ns =>
              match findSystemLikeIdByStatement reg pkg (ctx.getD (ctx.length - 2) default) with
              | none => .crash
              | some s =>
                if (systemNotifySettings reg s).any (fun n => n.comp == compLike) then
                  .ret .duplicateNotifyComponent reg
                else .ret .ok (setNotifyComponentSetting reg s compLike ns)
    | (none, .ok) => .crash
    | (_, e) => .ret e reg

/-- Embedding of `eval_entity_constraint_statement`. -/
def evalEntityConstraintStatement (reg : Reg) (pkg : Nat) (ctx : List Statement)
    (stmt : Statement) : EvalStep :=
  if ctx.length < 2 then .ret .invalidContext reg
  else
    let generatesStatement := ctx.getD (ctx.length - 1) default
    let sysLikeStatement := ctx.getD (ctx.length - 2) default
    if generatesStatement.type ≠ .systemGenerates then .ret .invalidContext reg
    else
      match disallowStatementParams stmt with
      | some e => .ret e reg
      | none =>
        match findSystemLikeIdByStatement reg pkg sysLikeStatement with
        | none => .ret .invalidContext reg
        | some s =>
          match findComponentIdByName reg pkg stmt.name with
          | none => .ret .unknownComponentType reg
          | some compId =>
            match systemGeneratesIds reg s with
            | [] => .ret .invalidContext reg
            | genId :: _ =>
              if (systemGeneratesComponents reg s genId).any (fun e => e.1 == compId) then
                .ret .generatesDuplicateComponentConstraints reg
              else
                .ret .ok
                  (generatesSetComponent reg s genId compId
                    (if stmt.optionalFlag then .optionalGen else .required))

/-- Embedding of `ecsact_eval_statement`: an empty statement stack returns
the OK error value untouched; otherwise the last stack entry is the current
statement, the rest the context, and evaluation dispatches on the
statement's kind (a `PACKAGE` statement is `UNEXPECTED_STATEMENT`). -/
def ecsactEvalStatement (reg : Reg) (pkg : Nat) (stack : List Statement) : EvalStep :=
  match stack.getLast? with
  | none => .ret .ok reg
  | some statement =>
    let ctx := stack.dropLast
    match statement.type with
    | .none => evalNoneStatement reg pkg ctx statement
    | .unknown => evalUnknownStatement reg pkg ctx statement
    | .package => .ret .unexpectedStatement reg
    | .importPkg => evalImportStatement reg pkg ctx statement
    | .component => evalComponentStatement reg pkg ctx statement
    | .transient => evalTransientStatement reg pkg ctx statement
    | .system => evalSystemStatement reg pkg ctx statement
    | .action => evalActionStatement reg pkg ctx statement
    | .enum => evalEnumStatement reg pkg ctx statement
    | .enumValue => evalEnumValueStatement reg pkg ctx statement
    | .builtinTypeField => evalBuiltinTypeFieldStatement reg pkg ctx statement
    | .userTypeField => evalUserTypeFieldStatement reg pkg ctx statement
    | .entityField => evalEntityFieldStatement reg pkg ctx statement
    | .systemComponent => evalSystemComponentStatement reg pkg ctx statement
    | .systemGenerates => evalSystemGeneratesStatement reg pkg ctx statement
    | .systemWith => evalSystemWithStatement reg pkg ctx statement
    | .entityConstraint => evalEntityConstraintStatement reg pkg ctx statement
    | .systemNotify => evalSystemNotifyStatement reg pkg ctx statement
    | .systemNotifyComponent => evalSystemNotifyComponentStatement reg pkg ctx statement

/-- Parse status codes relevant to the end-of-block hook
(`ecsact_parse_status_code`; only the comparison with `BLOCK_END`
matters). -/
inductive ParseStatusCode
  | ok
  | blockBegin
  | blockEnd
deriving DecidableEq, Repr

/-- Embedding of `ecsact::detail::check_file_eval_error` (end-of-block
hook): on a block end whose head statement is an `ACTION`, the registered
action's capability map must be non-empty, else the in/out error becomes
`NO_CAPABILITIES`.  The C++ dereferences the looked-up action id without a
check; `none` models that crash. -/
def checkFileEvalError (reg : Reg) (pkg : Nat) (status : ParseStatusCode)
    (stmt : Statement) (inOutErr : EvalErrCode) : Option EvalErrCode :=
  if status == .blockEnd then
    if stmt.type == .action then
      match findActionIdByName reg pkg stmt.name with
      | none => none
      | some aid =>
        if (systemCapabilities reg aid).isEmpty then some .noCapabilities
        else some inOutErr
    else some inOutErr
  else some inOutErr

/-! Theorems about the evaluator. -/

/-- C10: `ecsact_eval_statement` called with a statement stack of size zero
returns the OK error value, reads nothing from the stack and leaves the
registry unchanged. -/
theorem c10_empty_stack_returns_ok (reg : Reg) (pkg : Nat) :
    ecsactEvalStatement reg pkg [] = .ret .ok reg := rfl

/-- C4 counterexample: the typed parameter lookup does not return the first
parameter of matching name and requested type — with two integer values it
returns the last one, and a matching-name parameter of a different type
stops the scan instead of being skipped, hiding a later matching
parameter. -/
theorem c4_counterexample :
    statementParamInt [⟨"p", .int 1⟩, ⟨"p", .int 2⟩] "p" ≠ some 1 ∧
    statementParamInt [⟨"p", .bool true⟩, ⟨"p", .int 5⟩] "p" ≠ some 5 := by
  decide

/-- Last element of a cons list as the tail's last element with the head as
fallback. -/
theorem getLast?_cons_or {α : Type} (a : α) (l : List α) :
    (a :: l).getLast? = l.getLast?.or (some a) := by
  cases l with
  | nil => simp
  | cons b t =>
    rw [List.getLast?_cons_cons]
    have hs : ((b :: t).getLast?).isSome = true := by
      rw [List.getLast?_isSome]; simp
    cases h : (b :: t).getLast? with
    | none => rw [h] at hs; simp at hs
    | some v => simp [Option.or_some]

/-- Scan lemma for the integer parameter lookup: the accumulator-passing
loop computes the last matching typed value in the clash-free prefix, with
the incoming accumulator as fallback. -/
theorem statementParamIntGo_spec (pname : String) (ps : List Param) (acc : Option Int) :
    statementParamIntGo pname ps acc =
      (((ps.takeWhile (fun p => !(p.name == pname && !p.value.isInt))).filterMap
          (fun p => if p.name == pname then p.value.asInt else none)).getLast?).or acc := by
  induction ps generalizing acc with
  | nil => simp [statementParamIntGo]
  | cons p rest ih =>
    by_cases hn : p.name = pname
    · cases hv : p.value with
      | int v =>
        have hbeq : (p.name == pname) = true := beq_iff_eq.mpr hn
        rw [statementParamIntGo]
        simp only [hn, hv, ne_eq, not_true_eq_false, if_false]
        rw [List.takeWhile_cons]
        simp only [hbeq, hv, ParamValue.isInt, Bool.not_true, Bool.and_false, Bool.not_false,
          if_true, List.filterMap_cons, ParamValue.asInt, if_pos rfl]
        rw [getLast?_cons_or, Option.or_assoc, Option.or_some]
        exact ih (some v)
      | bool b =>
        have hbeq : (p.name == pname) = true := beq_iff_eq.mpr hn
        rw [statementParamIntGo]
        simp only [hn, hv, ne_eq, not_true_eq_false, if_false]
        rw [List.takeWhile_cons]
        simp [hbeq, hv, ParamValue.isInt]
      | str s =>
        have hbeq : (p.name == pname) = true := beq_iff_eq.mpr hn
        rw [statementParamIntGo]
        simp only [hn, hv, ne_eq, not_true_eq_false, if_false]
        rw [List.takeWhile_cons]
        simp [hbeq, hv, ParamValue.isInt]
    · have hbeq : (p.name == pname) = false := beq_eq_false_iff_ne.mpr hn
      rw [statementParamIntGo]
      simp only [ne_eq, hn, not_false_eq_true, if_true]
      rw [List.takeWhile_cons]
      simp only [hbeq, Bool.false_and, Bool.not_false, if_true, List.filterMap_cons, if_neg]
      exact ih acc

/-- Scan lemma for the bool parameter lookup. -/
theorem statementParamBoolGo_spec (pname : String) (ps : List Param) (acc : Option Bool) :
    statementParamBoolGo pname ps acc =
      (((ps.takeWhile (fun p => !(p.name == pname && !p.value.isBool))).filterMap
          (fun p => if p.name == pname then p.value.asBool else none)).getLast?).or acc := by
  induction ps generalizing acc with
  | nil => simp [statementParamBoolGo]
  | cons p rest ih =>
    by_cases hn : p.name = pname
    · cases hv : p.value with
      | bool b =>
        have hbeq : (p.name == pname) = true := beq_iff_eq.mpr hn
        rw [statementParamBoolGo]
        simp only [hn, hv, ne_eq, not_true_eq_false, if_false]
        rw [List.takeWhile_cons]
        simp only [hbeq, hv, ParamValue.isBool, Bool.not_true, Bool.and_false, Bool.not_false,
          if_true, List.filterMap_cons, ParamValue.asBool, if_pos rfl]
        rw [getLast?_cons_or, Option.or_assoc, Option.or_some]
        exact ih (some b)
      | int v =>
        have hbeq : (p.name == pname) = true := beq_iff_eq.mpr hn
        rw [statementParamBoolGo]
        simp only [hn, hv, ne_eq, not_true_eq_false, if_false]
        rw [List.takeWhile_cons]
        simp [hbeq, hv, ParamValue.isBool]
      | str s =>
        have hbeq : (p.name == pname) = true := beq_iff_eq.mpr hn
        rw [statementParamBoolGo]
        simp only [hn, hv, ne_eq, not_true_eq_false, if_false]
        rw [List.takeWhile_cons]
        simp [hbeq, hv, ParamValue.isBool]
    · have hbeq : (p.name == pname) = false := beq_eq_false_iff_ne.mpr hn
      rw [statementParamBoolGo]
      simp only [ne_eq, hn, not_false_eq_true, if_true]
      rw [List.takeWhile_cons]
      simp only [hbeq, Bool.false_and, Bool.not_false, if_true, List.filterMap_cons, if_neg]
      exact ih acc

/-- C4 amended: the typed parameter lookup scans the parameter list only up
to (excluding) the first parameter of matching name whose value has a
different type — such a parameter stops the scan rather than being skipped
— and returns the value of the last, not the first, parameter of matching
name and requested type in that prefix. -/
theorem c4_amended (ps : List Param) (pname : String) :
    statementParamInt ps pname =
      ((ps.takeWhile (fun p => !(p.name == pname && !p.value.isInt))).filterMap
        (fun p => if p.name == pname then p.value.asInt else none)).getLast? ∧
    statementParamBool ps pname =
      ((ps.takeWhile (fun p => !(p.name == pname && !p.value.isBool))).filterMap
        (fun p => if p.name == pname then p.value.asBool else none)).getLast? := by
  constructor
  · rw [statementParamInt, statementParamIntGo_spec]
    cases (((ps.takeWhile (fun p => !(p.name == pname && !p.value.isInt))).filterMap
        (fun p => if p.name == pname then p.value.asInt else none)).getLast?) <;> simp
  · rw [statementParamBool, statementParamBoolGo_spec]
    cases (((ps.takeWhile (fun p => !(p.name == pname && !p.value.isBool))).filterMap
        (fun p => if p.name == pname then p.value.asBool else none)).getLast?) <;> simp

/-! Name-resolver theorems (claim C1). -/

/-- Registry with a main package `pkg` (component C, system S, action Act,
enum E, transient Tr) and an imported dependency `dep` (component D,
system T, action DAct). -/
def c1Reg : Reg :=
  { nextId := 10
    packages := [⟨0, "pkg"⟩, ⟨1, "dep"⟩]
    pkgDeps := [(0, 1)]
    components := [⟨0, 2, "C", .none⟩, ⟨1, 5, "D", .none⟩]
    systems := [⟨0, 3, "S"⟩, ⟨1, 4, "T"⟩]
    actions := [⟨0, 8, "Act"⟩, ⟨1, 9, "DAct"⟩]
    enums := [⟨0, 6, "E"⟩]
    transients := [⟨0, 7, "Tr"⟩] }

/-- C1 counterexample: the system and action  specialisations of the name
resolver do not accept qualified `pkg.Name` forms and do not search
imported dependencies, while the component specialisation resolves the
same shapes of lookup. -/
theorem c1_counterexample :
    findSystemIdByName c1Reg 0 "pkg.S" = none ∧
    findSystemIdByName c1Reg 0 "dep.T" = none ∧
    findActionIdByName c1Reg 0 "pkg.Act" = none ∧
    findActionIdByName c1Reg 0 "dep.DAct" = none ∧
    findComponentIdByName c1Reg 0 "pkg.C" = some 2 ∧
    findComponentIdByName c1Reg 0 "dep.D" = some 5 := by
  decide

/-- A `findSome?` scan succeeds when some element of the list succeeds. -/
theorem findSome?_isSome_of_mem {α β : Type} (f : α → Option β) (l : List α)
    (x : α) (hx : x ∈ l) (h : (f x).isSome) : (l.findSome? f).isSome := by
  induction l with
  | nil => cases hx
  | cons y t ih =>
    rw [List.findSome?_cons]
    cases hy : f y with
    | some b => simp
    | none =>
      rcases List.mem_cons.mp hx with h1 | h2
      · subst h1; rw [hy] at h; simp at h
      · exact ih h2

/-- The shared component/transient/enum lookup succeeds on a bare or
`this_package.Name` qualified name of an own declaration. -/
theorem findDeclIn_own_isSome (pkgName : String) (own : List (Nat × String))
    (deps : List (String × List (Nat × String))) (lookup : String)
    (e : Nat × String) (he : e ∈ own)
    (hl : lookup = e.2 ∨ lookup = pkgName ++ "." ++ e.2) :
    (findDeclIn pkgName own deps lookup).isSome := by
  unfold findDeclIn
  cases h : own.find? (fun x => lookup == x.2 || lookup == pkgName ++ "." ++ x.2) with
  | some y => simp
  | none =>
    exfalso
    apply List.find?_eq_none.mp h e he
    cases hl with
    | inl h1 => simp [h1]
    | inr h2 => simp [h2]

/-- The shared component/transient/enum lookup succeeds on a
`dep_name.Name` qualified name of a dependency's declaration. -/
theorem findDeclIn_dep_isSome (pkgName : String) (own : List (Nat × String))
    (deps : List (String × List (Nat × String))) (lookup : String)
    (d : String × List (Nat × String)) (e : Nat × String)
    (hd : d ∈ deps) (he : e ∈ d.2) (hl : lookup = d.1 ++ "." ++ e.2) :
    (findDeclIn pkgName own deps lookup).isSome := by
  unfold findDeclIn
  cases h : own.find? (fun x => lookup == x.2 || lookup == pkgName ++ "." ++ x.2) with
  | some y => simp
  | none =>
    apply findSome?_isSome_of_mem _ _ d hd
    cases hf : d.2.find? (fun x => lookup == d.1 ++ "." ++ x.2) with
    | some y => simp [hf]
    | none =>
      exfalso
      exact List.find?_eq_none.mp hf e he (by simp [hl])

/-- C1 amended: the component, transient and enum specialisations of the
name resolver accept bare names, `this_package.Name` qualified forms, and
the `dep_name.Name` form for declarations of imported dependencies; the
system and action specialisations instead resolve a lookup name if and
only if it literally equals the bare name of a system (respectively
action) declared in the given package — they accept no qualified form and
never search dependencies. -/
theorem c1_amended :
    (∀ reg pkg c, c ∈ componentsOf reg pkg →
      (findComponentIdByName reg pkg c.name).isSome ∧
      (findComponentIdByName reg pkg (packageName reg pkg ++ "." ++ c.name)).isSome) ∧
    (∀ reg pkg d c, d ∈ getDependencies reg pkg → c ∈ componentsOf reg d →
      (findComponentIdByName reg pkg (packageName reg d ++ "." ++ c.name)).isSome) ∧
    (∀ reg pkg t, t ∈ transientsOf reg pkg →
      (findTransientIdByName reg pkg t.name).isSome ∧
      (findTransientIdByName reg pkg (packageName reg pkg ++ "." ++ t.name)).isSome) ∧
    (∀ reg pkg d t, d ∈ getDependencies reg pkg → t ∈ transientsOf reg d →
      (findTransientIdByName reg pkg (packageName reg d ++ "." ++ t.name)).isSome) ∧
    (∀ reg pkg e, e ∈ enumsOf reg pkg →
      (findEnumIdByName reg pkg e.name).isSome ∧
      (findEnumIdByName reg pkg (packageName reg pkg ++ "." ++ e.name)).isSome) ∧
    (∀ reg pkg d e, d ∈ getDependencies reg pkg → e ∈ enumsOf reg d →
      (findEnumIdByName reg pkg (packageName reg d ++ "." ++ e.name)).isSome) ∧
    (∀ reg pkg lookup, (findSystemIdByName reg pkg lookup).isSome ↔
      ∃ s ∈ systemsOf reg pkg, s.name = lookup) ∧
    (∀ reg pkg lookup, (findActionIdByName reg pkg lookup).isSome ↔
      ∃ a ∈ actionsOf reg pkg, a.name = lookup) := by
  refine ⟨?_, ?_, ?_, ?_, ?_, ?_, ?_, ?_⟩
  · intro reg pkg c hc
    constructor
    · exact findDeclIn_own_isSome _ _ _ _ (c.id, c.name)
        (List.mem_map.mpr ⟨c, hc, rfl⟩) (Or.inl rfl)
    · exact findDeclIn_own_isSome _ _ _ _ (c.id, c.name)
        (List.mem_map.mpr ⟨c, hc, rfl⟩) (Or.inr rfl)
  · intro reg pkg d c hd hc
    exact findDeclIn_dep_isSome _ _ _ _
      (packageName reg d, (componentsOf reg d).map (fun x => (x.id, x.name)))
      (c.id, c.name) (List.mem_map.mpr ⟨d, hd, rfl⟩)
      (List.mem_map.mpr ⟨c, hc, rfl⟩) rfl
  · intro reg pkg t ht
    constructor
    · exact findDeclIn_own_isSome _ _ _ _ (t.id, t.name)
        (List.mem_map.mpr ⟨t, ht, rfl⟩) (Or.inl rfl)
    · exact findDeclIn_own_isSome _ _ _ _ (t.id, t.name)
        (List.mem_map.mpr ⟨t, ht, rfl⟩) (Or.inr rfl)
  · intro reg pkg d t hd ht
    exact findDeclIn_dep_isSome _ _ _ _
      (packageName reg d, (transientsOf reg d).map (fun x => (x.id, x.name)))
      (t.id, t.name) (List.mem_map.mpr ⟨d, hd, rfl⟩)
      (List.mem_map.mpr ⟨t, ht, rfl⟩) rfl
  · intro reg pkg e he
    constructor
    · exact findDeclIn_own_isSome _ _ _ _ (e.id, e.name)
        (List.mem_map.mpr ⟨e, he, rfl⟩) (Or.inl rfl)
    · exact findDeclIn_own_isSome _ _ _ _ (e.id, e.name)
        (List.mem_map.mpr ⟨e, he, rfl⟩) (Or.inr rfl)
  · intro reg pkg d e hd he
    exact findDeclIn_dep_isSome _ _ _ _
      (packageName reg d, (enumsOf reg d).map (fun x => (x.id, x.name)))
      (e.id, e.name) (List.mem_map.mpr ⟨d, hd, rfl⟩)
      (List.mem_map.mpr ⟨e, he, rfl⟩) rfl
  · intro reg pkg lookup
    rw [findSystemIdByName]
    rw [show ∀ (o : Option Decl), (Option.map (fun s => s.id) o).isSome = o.isSome by
      intro o; cases o <;> rfl]
    rw [List.find?_isSome]
    constructor
    · rintro ⟨s, hs, hp⟩
      exact ⟨s, hs, (beq_iff_eq.mp hp).symm⟩
    · rintro ⟨s, hs, hp⟩
      exact ⟨s, hs, beq_iff_eq.mpr hp.symm⟩
  · intro reg pkg lookup
    rw [findActionIdByName]
    rw [show ∀ (o : Option Decl), (Option.map (fun s => s.id) o).isSome = o.isSome by
      intro o; cases o <;> rfl]
    rw [List.find?_isSome]
    constructor
    · rintro ⟨s, hs, hp⟩
      exact ⟨s, hs, (beq_iff_eq.mp hp).symm⟩
    · rintro ⟨s, hs, hp⟩
      exact ⟨s, hs, beq_iff_eq.mpr hp.symm⟩

/-- Helper: the context matcher succeeds when the stack top exists and its
type is allowed. -/
theorem expectContext_pass (ctx : List Statement) (allowed : List StmtType)
    (c : Statement) (hlast : ctx.getLast? = some c)
    (hmem : allowed.contains c.type = true) :
    expectContext ctx allowed = (some c, .ok) := by
  unfold expectContext
  rw [hlast]
  dsimp only
  rw [if_pos hmem]

/-- Helper: a statement without parameters passes the no-parameters
validator. -/
theorem disallowStatementParams_empty (stmt : Statement) (h : stmt.params = []) :
    disallowStatementParams stmt = none := by
  unfold disallowStatementParams allowStatementParams
  simp [h]

/-- C1 amended, witnessed at the concrete registry `c1Reg`. -/
theorem c1_amended_witness :
    ((⟨0, 2, "C", CompType.none⟩ : CompDecl) ∈ componentsOf c1Reg 0) ∧
    (findComponentIdByName c1Reg 0
      (packageName c1Reg 0 ++ "." ++ (⟨0, 2, "C", CompType.none⟩ : CompDecl).name)).isSome ∧
    ((findSystemIdByName c1Reg 0 "pkg.S").isSome ↔
      ∃ s ∈ systemsOf c1Reg 0, s.name = "pkg.S") :=
  ⟨by decide,
   (c1_amended.1 c1Reg 0 ⟨0, 2, "C", CompType.none⟩ (by decide)).2,
   c1_amended.2.2.2.2.2.2.1 c1Reg 0 "pkg.S"⟩

/-! End-of-block hook (claim C9). -/

/-- C9: when the end-of-block hook runs on a block-end status whose head
statement is an `ACTION` that resolves to a registered action, an empty
capability map turns the in/out error into `NO_CAPABILITIES`, and a
non-empty capability map leaves it at OK. -/
theorem c9_action_requires_capabilities (reg : Reg) (pkg : Nat)
    (stmt : Statement) (aid : Nat) (htype : stmt.type = .action)
    (hfind : findActionIdByName reg pkg stmt.name = some aid) :
    (systemCapabilities reg aid = [] →
      checkFileEvalError reg pkg .blockEnd stmt .ok = some .noCapabilities) ∧
    (systemCapabilities reg aid ≠ [] →
      checkFileEvalError reg pkg .blockEnd stmt .ok = some .ok) := by
  unfold checkFileEvalError
  rw [htype, hfind]
  constructor
  · intro h
    simp [h]
  · intro h
    simp [List.isEmpty_iff, h]

/-- Registry with one action `A` (id 1) and no capabilities, for the C9
witness. -/
def c9Reg : Reg :=
  { nextId := 2
    packages := [⟨0, "pkg"⟩]
    actions := [⟨0, 1, "A"⟩] }

/-- Action-head statement used by the C9 witness. -/
def c9Stmt : Statement := { type := .action, name := "A" }

/-- C9 witnessed at the concrete registry `c9Reg`. -/
theorem c9_action_requires_capabilities_witness :
    (systemCapabilities c9Reg 1 = [] →
      checkFileEvalError c9Reg 0 .blockEnd c9Stmt .ok = some .noCapabilities) ∧
    (systemCapabilities c9Reg 1 ≠ [] →
      checkFileEvalError c9Reg 0 .blockEnd c9Stmt .ok = some .ok) :=
  c9_action_requires_capabilities c9Reg 0 c9Stmt 1 (by decide) (by decide)

/-! Generates-block theorems (claim C6). -/

/-- C6: a `SYSTEM_GENERATES` statement under a `SYSTEM`/`ACTION` whose
system-like already owns a generates-block fails with
`ONLY_ONE_GENERATES_BLOCK_ALLOWED` and leaves the registry unchanged;
otherwise exactly one fresh, empty generates-block is created for that
system-like. -/
theorem c6_one_generates_block (reg : Reg) (pkg : Nat) (ctx : List Statement)
    (stmt : Statement) (c : Statement) (s : Nat)
    (hlast : ctx.getLast? = some c)
    (htype : c.type = .system ∨ c.type = .action)
    (hparams : stmt.params = [])
    (hsys : findSystemLikeIdByStatement reg pkg c = some s) :
    (systemGeneratesIds reg s ≠ [] →
      evalSystemGeneratesStatement reg pkg ctx stmt =
        .ret .onlyOneGeneratesBlockAllowed reg) ∧
    (systemGeneratesIds reg s = [] →
      evalSystemGeneratesStatement reg pkg ctx stmt =
        .ret .ok
          { reg with
            nextId := reg.nextId + 1
            generates := reg.generates ++ [⟨s, reg.nextId, []⟩] }) := by
  have hmem : ([.system, .action] : List StmtType).contains c.type = true := by
    rcases htype with h | h <;> rw [h] <;> decide
  unfold evalSystemGeneratesStatement
  rw [expectContext_pass ctx _ c hlast hmem]
  dsimp only
  rw [disallowStatementParams_empty stmt hparams]
  dsimp only
  rw [hsys]
  dsimp only
  constructor
  · intro h
    simp [List.isEmpty_iff, h]
  · intro h
    simp [List.isEmpty_iff, h]
    rfl

/-- Registry with one system `S` (id 1) and no generates-block, for the C6
witness. -/
def c6Reg : Reg :=
  { nextId := 2
    packages := [⟨0, "pkg"⟩]
    systems := [⟨0, 1, "S"⟩] }

/-- System context statement used by the C6 witness. -/
def c6SysStmt : Statement := { type := .system, name := "S" }

/-- Generates statement used by the C6 witness. -/
def c6GenStmt : Statement := { type := .systemGenerates }

/-- C6 witnessed at the concrete registry `c6Reg`. -/
theorem c6_one_generates_block_witness :
    (systemGeneratesIds c6Reg 1 ≠ [] →
      evalSystemGeneratesStatement c6Reg 0 [c6SysStmt] c6GenStmt =
        .ret .onlyOneGeneratesBlockAllowed c6Reg) ∧
    (systemGeneratesIds c6Reg 1 = [] →
      evalSystemGeneratesStatement c6Reg 0 [c6SysStmt] c6GenStmt =
        .ret .ok
          { c6Reg with
            nextId := c6Reg.nextId + 1
            generates := c6Reg.generates ++ [⟨1, c6Reg.nextId, []⟩] }) :=
  c6_one_generates_block c6Reg 0 [c6SysStmt] c6GenStmt c6SysStmt 1
    (by decide) (Or.inl (by decide)) (by decide) (by decide)

/-! Notify-statement theorems (claim C5). -/

/-- Registry with one system `S` (id 1), no capabilities and no notify
settings. -/
def c5Reg : Reg :=
  { nextId := 2
    packages := [⟨0, "pkg"⟩]
    systems := [⟨0, 1, "S"⟩] }

/-- System context statement naming `S`. -/
def c5SysStmt : Statement := { type := .system, name := "S" }

/-- A `notify always;` statement. -/
def c5NotifyStmt : Statement := { type := .systemNotify, settingName := "always" }

/-- C5 counterexample: on a system with no capabilities, a first
`SYSTEM_NOTIFY` statement is accepted and registers no notify settings, so
the registry is unchanged — and therefore evaluating a second, identical
`SYSTEM_NOTIFY` statement (the state after the first is exactly `c5Reg`)
again returns OK instead of failing with `MULTIPLE_NOTIFY_STATEMENTS`.
Two notify statements are accepted for the same system-like in one run. -/
theorem c5_counterexample :
    evalSystemNotifyStatement c5Reg 0 [c5SysStmt] c5NotifyStmt = .ret .ok c5Reg ∧
    evalSystemNotifyStatement c5Reg 0 [c5SysStmt] c5NotifyStmt ≠
      .ret .multipleNotifyStatements c5Reg := by
  decide

/-- C5 amended: a `SYSTEM_NOTIFY` statement under a resolvable
`SYSTEM`/`ACTION` context fails with `MULTIPLE_NOTIFY_STATEMENTS` exactly
when the system-like already has at least one notify *setting* registered;
an earlier notify statement that registered no settings (empty block form,
or a setting applied to an empty capability map) does not block later
notify statements. -/
theorem c5_amended (reg : Reg) (pkg : Nat) (ctx : List Statement)
    (stmt c : Statement) (s : Nat)
    (hlast : ctx.getLast? = some c)
    (htype : c.type = .system ∨ c.type = .action)
    (hparams : stmt.params = [])
    (hsys : findSystemLikeIdByStatement reg pkg c = some s) :
    evalSystemNotifyStatement reg pkg ctx stmt =
        .ret .multipleNotifyStatements reg ↔
      systemNotifySettings reg s ≠ [] := by
  have hmem : ([.system, .action] : List StmtType).contains c.type = true := by
    rcases htype with h | h <;> rw [h] <;> decide
  unfold evalSystemNotifyStatement
  rw [expectContext_pass ctx _ c hlast hmem]
  dsimp only
  rw [disallowStatementParams_empty stmt hparams]
  dsimp only
  rw [hsys]
  dsimp only
  cases h : systemNotifySettings reg s with
  | cons a t => simp
  | nil =>
    simp only [List.isEmpty_nil, Bool.not_true, Bool.false_eq_true, if_false, ne_eq,
      not_true_eq_false, iff_false]
    intro hres
    by_cases hname : stmt.settingName ≠ ""
    · rw [if_pos hname] at hres
      cases hns : getNotifySettingFromString stmt.settingName with
      | none => rw [hns] at hres; simp at hres
      | some ns => rw [hns] at hres; simp at hres
    · rw [if_neg hname] at hres
      simp at hres

/-- Registry like `c5Reg` but with a notify setting already registered on
system 1. -/
def c5RegNotified : Reg := { c5Reg with notifies := [⟨1, 5, .always⟩] }

/-- C5 amended, witnessed at the concrete registry `c5RegNotified`. -/
theorem c5_amended_witness :
    evalSystemNotifyStatement c5RegNotified 0 [c5SysStmt] c5NotifyStmt =
        .ret .multipleNotifyStatements c5RegNotified ↔
      systemNotifySettings c5RegNotified 1 ≠ [] :=
  c5_amended c5RegNotified 0 [c5SysStmt] c5NotifyStmt c5SysStmt 1
    (by decide) (Or.inl (by decide)) (by decide) (by decide)

/-! Component-statement parameter theorems (claim C7). -/

/-- Registry shape after a successful top-level `COMPONENT` statement: one
fresh component appended with the given component type. -/
def createdWithType (reg : Reg) (pkg : Nat) (name : String) (ct : CompType) : Reg :=
  { reg with
    nextId := reg.nextId + 1
    components := reg.components ++ [⟨pkg, reg.nextId, name, ct⟩] }

/-- Setting the type of a fresh component id leaves components with other
ids unchanged. -/
theorem map_setType_fresh (l : List CompDecl) (nid : Nat) (ct : CompType)
    (h : ∀ x ∈ l, x.id ≠ nid) :
    l.map (fun c => if c.id == nid then { c with ctype := ct } else c) = l := by
  have h2 : ∀ c ∈ l, (if c.id == nid then { c with ctype := ct } else c) = c := by
    intro x hx
    simp [h x hx]
  rw [List.map_congr_left h2]
  simp

/-- C7: the `stream` and `transient` parameters of a top-level `COMPONENT`
statement combine as specified: `stream=true` alone gives STREAM,
`stream="lazy"` gives LAZY_STREAM, any other stream string fails with
`INVALID_PARAMETER_VALUE`, `transient=true` alone gives the TRANSIENT
marker, a truthy stream combined with `transient=true` fails with
`INVALID_PARAMETER_VALUE`, and no parameters give component type NONE. -/
theorem c7_component_param_combinations (reg : Reg) (pkg : Nat) (stmt : Statement)
    (hname : findDeclIdByName reg pkg stmt.name = none)
    (hfresh : ∀ x ∈ reg.components, x.id ≠ reg.nextId) :
    (stmt.params = [⟨"stream", .bool true⟩] →
      evalComponentStatement reg pkg [] stmt =
        .ret .ok (createdWithType reg pkg stmt.name .stream)) ∧
    (stmt.params = [⟨"stream", .str "lazy"⟩] →
      evalComponentStatement reg pkg [] stmt =
        .ret .ok (createdWithType reg pkg stmt.name .lazyStream)) ∧
    (∀ s : String, s ≠ "lazy" → stmt.params = [⟨"stream", .str s⟩] →
      evalComponentStatement reg pkg [] stmt = .ret .invalidParameterValue reg) ∧
    (stmt.params = [⟨"transient", .bool true⟩] →
      evalComponentStatement reg pkg [] stmt =
        .ret .ok (createdWithType reg pkg stmt.name .transientMark)) ∧
    (stmt.params = [⟨"stream", .bool true⟩, ⟨"transient", .bool true⟩] →
      evalComponentStatement reg pkg [] stmt = .ret .invalidParameterValue reg) ∧
    (stmt.params = [⟨"stream", .str "lazy"⟩, ⟨"transient", .bool true⟩] →
      evalComponentStatement reg pkg [] stmt = .ret .invalidParameterValue reg) ∧
    (stmt.params = [] →
      evalComponentStatement reg pkg [] stmt =
        .ret .ok (createdWithType reg pkg stmt.name .none)) := by
  have hexp : expectContext [] [StmtType.none] = (none, EvalErrCode.ok) := rfl
  refine ⟨?_, ?_, ?_, ?_, ?_, ?_, ?_⟩
  · intro hp
    have hal : allowStatementParams stmt ["stream", "transient"] = none := by
      unfold allowStatementParams; rw [hp]; rfl
    have hstream : statementParamBoolOrStr stmt.params "stream" = some (.bool true) := by
      rw [hp]; rfl
    have htrans : statementParamBool stmt.params "transient" = none := by
      rw [hp]; rfl
    unfold evalComponentStatement
    rw [hexp]; dsimp only
    rw [hal]; dsimp only
    rw [hstream, htrans]; dsimp only
    rw [hname]; dsimp only
    unfold createComponent setComponentType createdWithType
    dsimp only
    rw [List.map_append, map_setType_fresh reg.components reg.nextId _ hfresh]
    simp
  · intro hp
    have hal : allowStatementParams stmt ["stream", "transient"] = none := by
      unfold allowStatementParams; rw [hp]; rfl
    have hstream : statementParamBoolOrStr stmt.params "stream" = some (.str "lazy") := by
      rw [hp]; rfl
    have htrans : statementParamBool stmt.params "transient" = none := by
      rw [hp]; rfl
    unfold evalComponentStatement
    rw [hexp]; dsimp only
    rw [hal]; dsimp only
    rw [hstream, htrans]; dsimp only
    rw [if_neg (by decide : ¬("lazy" ≠ "lazy"))]; dsimp only
    rw [hname]; dsimp only
    unfold createComponent setComponentType createdWithType
    dsimp only
    rw [List.map_append, map_setType_fresh reg.components reg.nextId _ hfresh]
    simp
  · intro s hs hp
    have hal : allowStatementParams stmt ["stream", "transient"] = none := by
      unfold allowStatementParams; rw [hp]; rfl
    have hstream : statementParamBoolOrStr stmt.params "stream" = some (.str s) := by
      rw [hp]; rfl
    unfold evalComponentStatement
    rw [hexp]; dsimp only
    rw [hal]; dsimp only
    rw [hstream]; dsimp only
    rw [if_pos hs]
  · intro hp
    have hal : allowStatementParams stmt ["stream", "transient"] = none := by
      unfold allowStatementParams; rw [hp]; rfl
    have hstream : statementParamBoolOrStr stmt.params "stream" = none := by
      rw [hp]; rfl
    have htrans : statementParamBool stmt.params "transient" = some true := by
      rw [hp]; rfl
    unfold evalComponentStatement
    rw [hexp]; dsimp only
    rw [hal]; dsimp only
    rw [hstream, htrans]; dsimp only
    rw [if_neg (by decide : ¬(CompType.none ≠ CompType.none))]; dsimp only
    rw [hname]; dsimp only
    unfold createComponent setComponentType createdWithType
    dsimp only
    rw [List.map_append, map_setType_fresh reg.components reg.nextId _ hfresh]
    simp
  · intro hp
    have hal : allowStatementParams stmt ["stream", "transient"] = none := by
      unfold allowStatementParams; rw [hp]; rfl
    have hstream : statementParamBoolOrStr stmt.params "stream" = some (.bool true) := by
      rw [hp]; rfl
    have htrans : statementParamBool stmt.params "transient" = some true := by
      rw [hp]; rfl
    unfold evalComponentStatement
    rw [hexp]; dsimp only
    rw [hal]; dsimp only
    rw [hstream, htrans]; dsimp only
    rfl
  · intro hp
    have hal : allowStatementParams stmt ["stream", "transient"] = none := by
      unfold allowStatementParams; rw [hp]; rfl
    have hstream : statementParamBoolOrStr stmt.params "stream" = some (.str "lazy") := by
      rw [hp]; rfl
    have htrans : statementParamBool stmt.params "transient" = some true := by
      rw [hp]; rfl
    unfold evalComponentStatement
    rw [hexp]; dsimp only
    rw [hal]; dsimp only
    rw [hstream, htrans]; dsimp only
    rfl
  · intro hp
    have hal : allowStatementParams stmt ["stream", "transient"] = none := by
      unfold allowStatementParams; rw [hp]; rfl
    have hstream : statementParamBoolOrStr stmt.params "stream" = none := by
      rw [hp]; rfl
    have htrans : statementParamBool stmt.params "transient" = none := by
      rw [hp]; rfl
    unfold evalComponentStatement
    rw [hexp]; dsimp only
    rw [hal]; dsimp only
    rw [hstream, htrans]; dsimp only
    rw [hname]; dsimp only
    unfold createComponent setComponentType createdWithType
    dsimp only
    rw [List.map_append, map_setType_fresh reg.components reg.nextId _ hfresh]
    simp

/-- Fresh registry with one empty package, for the C7 witness. -/
def c7Reg : Reg := { nextId := 1, packages := [⟨0, "pkg"⟩] }

/-- Component statement with `stream=true`, for the C7 witness. -/
def c7Stmt : Statement :=
  { type := .component, name := "C", params := [⟨"stream", .bool true⟩] }

/-- C7 witnessed at the concrete registry `c7Reg`: the `stream=true` case. -/
theorem c7_component_param_combinations_witness :
    c7Stmt.params = [⟨"stream", .bool true⟩] ∧
      evalComponentStatement c7Reg 0 [] c7Stmt =
        .ret .ok (createdWithType c7Reg 0 c7Stmt.name .stream) :=
  ⟨by decide,
   (c7_component_param_combinations c7Reg 0 c7Stmt (by decide) (by decide)).1 (by decide)⟩

/-! Notify-before-capability ordering theorems (claim C2). -/

/-- Folding the per-capability notify registration appends exactly one
notify entry per capability, in capability-map order. -/
theorem foldl_setNotify (s : Nat) (ns : NotifyKind) (caps : List CapEntry) :
    ∀ r : Reg,
      caps.foldl (fun r cap => setNotifyComponentSetting r s cap.comp ns) r =
        { r with notifies := r.notifies ++ caps.map (fun cap => ⟨s, cap.comp, ns⟩) } := by
  induction caps with
  | nil => intro r; simp
  | cons a t ih =>
    intro r
    rw [List.foldl_cons, ih]
    unfold setNotifyComponentSetting
    dsimp only
    rw [List.map_cons]
    simp [List.append_assoc]

/-- C2: the notify/capability ordering rule is enforced asymmetrically.
A `SYSTEM_COMPONENT` statement evaluated directly under a resolvable
`SYSTEM`/`ACTION` context whose system-like already has at least one
registered notify setting fails with `NOTIFY_BEFORE_SYSTEM_COMPONENT` and
mutates nothing; conversely a `SYSTEM_NOTIFY` statement with a non-empty,
valid block-level setting name evaluated when no notify setting exists yet
succeeds and registers that setting for every component already in the
system-like's capability map. -/
theorem c2_notify_capability_ordering :
    (∀ (reg : Reg) (pkg : Nat) (ctx : List Statement) (stmt c : Statement)
        (s compLike : Nat),
      ctx.getLast? = some c →
      (c.type = .system ∨ c.type = .action) →
      stmt.params = [] →
      findComponentLikeIdByName reg pkg stmt.name = some compLike →
      findSystemLikeIdByStatement reg pkg c = some s →
      systemNotifySettings reg s ≠ [] →
      evalSystemComponentStatement reg pkg ctx stmt =
        .ret .notifyBeforeSystemComponent reg) ∧
    (∀ (reg : Reg) (pkg : Nat) (ctx : List Statement) (stmt c : Statement)
        (s : Nat) (ns : NotifyKind),
      ctx.getLast? = some c →
      (c.type = .system ∨ c.type = .action) →
      stmt.params = [] →
      findSystemLikeIdByStatement reg pkg c = some s →
      systemNotifySettings reg s = [] →
      stmt.settingName ≠ "" →
      getNotifySettingFromString stmt.settingName = some ns →
      evalSystemNotifyStatement reg pkg ctx stmt =
        .ret .ok
          { reg with
            notifies := reg.notifies ++
              (systemCapabilities reg s).map (fun cap => ⟨s, cap.comp, ns⟩) } ∧
      ∀ cap ∈ systemCapabilities reg s,
        (⟨s, cap.comp, ns⟩ : NotifyEntry) ∈ reg.notifies ++
          (systemCapabilities reg s).map (fun cap => ⟨s, cap.comp, ns⟩)) := by
  constructor
  · intro reg pkg ctx stmt c s compLike hlast htype hparams hcomp hsys hnot
    have hmem :
        ([.system, .action, .systemComponent, .systemWith] : List StmtType).contains
          c.type = true := by
      rcases htype with h | h <;> rw [h] <;> decide
    unfold evalSystemComponentStatement
    rw [expectContext_pass ctx _ c hlast hmem]
    dsimp only
    rw [disallowStatementParams_empty stmt hparams]
    dsimp only
    rw [hcomp]
    dsimp only
    have hbranch : scBranch reg pkg ctx c stmt = .proceed (some s) none := by
      unfold scBranch
      rcases htype with h | h <;> rw [h] <;> dsimp only <;> rw [hsys]
    rw [hbranch]
    dsimp only
    unfold scFinish
    rw [if_pos (by simp [List.isEmpty_iff, hnot])]
  · intro reg pkg ctx stmt c s ns hlast htype hparams hsys hnone hname hns
    have hmem : ([.system, .action] : List StmtType).contains c.type = true := by
      rcases htype with h | h <;> rw [h] <;> decide
    constructor
    · unfold evalSystemNotifyStatement
      rw [expectContext_pass ctx _ c hlast hmem]
      dsimp only
      rw [disallowStatementParams_empty stmt hparams]
      dsimp only
      rw [hsys]
      dsimp only
      rw [hnone]
      simp only [List.isEmpty_nil, Bool.not_true, Bool.false_eq_true, if_false]
      rw [if_pos hname, hns]
      dsimp only
      rw [foldl_setNotify]
    · intro cap hcap
      exact List.mem_append_right _ (List.mem_map.mpr ⟨cap, hcap, rfl⟩)

/-- Registry with system `S` (id 1) carrying a capability on component `C`
(id 2) and no notify settings, for the C2 witness. -/
def c2Reg : Reg :=
  { nextId := 3
    packages := [⟨0, "pkg"⟩]
    systems := [⟨0, 1, "S"⟩]
    components := [⟨0, 2, "C", .none⟩]
    capabilities := [⟨1, 2, 7⟩] }

/-- Registry `c2Reg` after `notify always;` registered C's setting. -/
def c2RegNotified : Reg := { c2Reg with notifies := [⟨1, 2, .always⟩] }

/-- System context statement naming `S`, for the C2 witness. -/
def c2SysStmt : Statement := { type := .system, name := "S" }

/-- Capability statement `readwrite C;`, for the C2 witness. -/
def c2CapStmt : Statement := { type := .systemComponent, name := "C", capability := 7 }

/-- Notify statement `notify always;`, for the C2 witness. -/
def c2NotifyStmt : Statement := { type := .systemNotify, settingName := "always" }

/-- C2 witnessed concretely: a capability statement after a notify setting
exists errors, and `notify always;` after a capability succeeds and sets
the capability component's notify setting. -/
theorem c2_notify_capability_ordering_witness :
    evalSystemComponentStatement c2RegNotified 0 [c2SysStmt] c2CapStmt =
      .ret .notifyBeforeSystemComponent c2RegNotified ∧
    (evalSystemNotifyStatement c2Reg 0 [c2SysStmt] c2NotifyStmt =
      .ret .ok
        { c2Reg with
          notifies := c2Reg.notifies ++
            (systemCapabilities c2Reg 1).map (fun cap => ⟨1, cap.comp, .always⟩) } ∧
     ∀ cap ∈ systemCapabilities c2Reg 1,
       (⟨1, cap.comp, NotifyKind.always⟩ : NotifyEntry) ∈ c2Reg.notifies ++
         (systemCapabilities c2Reg 1).map (fun cap => ⟨1, cap.comp, NotifyKind.always⟩)) :=
  ⟨c2_notify_capability_ordering.1 c2RegNotified 0 [c2SysStmt] c2CapStmt c2SysStmt 1 2
      (by decide) (Or.inl (by decide)) (by decide) (by decide) (by decide) (by decide),
   c2_notify_capability_ordering.2 c2Reg 0 [c2SysStmt] c2NotifyStmt c2SysStmt 1 .always
      (by decide) (Or.inl (by decide)) (by decide) (by decide) (by decide) (by decide)
      (by decide)⟩

/-! Association shared-logic theorems (claim C3). -/

/-- A field name resolves on the component-like with an
association-acceptable type. -/
def assocNameResolvesOk (reg : Reg) (cl : Nat) (m : String) : Prop :=
  ∃ f, (fieldsOf reg cl).find? (fun g => g.name == m) = some f ∧
    validAssocFieldType f.ftype = true

/-- The field-resolution loop fails with `UNKNOWN_FIELD_NAME` at the first
unresolvable name, after any prefix of names that resolve acceptably. -/
theorem resolveAssocFields_unknown (reg : Reg) (cl : Nat) (n : String)
    (post : List String) :
    ∀ pre : List String, (∀ m ∈ pre, assocNameResolvesOk reg cl m) →
      (fieldsOf reg cl).find? (fun g => g.name == n) = none →
      resolveAssocFields reg cl (pre ++ n :: post) = .inr .unknownFieldName := by
  intro pre
  induction pre with
  | nil =>
    intro _ hn
    rw [List.nil_append]
    unfold resolveAssocFields
    rw [hn]
  | cons m pre' ih =>
    intro hpre hn
    obtain ⟨f, hf, hvalid⟩ := hpre m (List.mem_cons_self m pre')
    rw [List.cons_append]
    unfold resolveAssocFields
    rw [hf]
    dsimp only
    rw [if_pos hvalid, ih (fun x hx => hpre x (List.mem_cons_of_mem m hx)) hn]

/-- The field-resolution loop fails with `INVALID_ASSOC_FIELD_TYPE` at the
first name resolving to a field of unacceptable type, after any prefix of
names that resolve acceptably. -/
theorem resolveAssocFields_invalid (reg : Reg) (cl : Nat) (n : String)
    (post : List String) (f : FieldDecl) :
    ∀ pre : List String, (∀ m ∈ pre, assocNameResolvesOk reg cl m) →
      (fieldsOf reg cl).find? (fun g => g.name == n) = some f →
      validAssocFieldType f.ftype = false →
      resolveAssocFields reg cl (pre ++ n :: post) = .inr .invalidAssocFieldType := by
  intro pre
  induction pre with
  | nil =>
    intro _ hn hbad
    rw [List.nil_append]
    unfold resolveAssocFields
    rw [hn]
    dsimp only
    rw [if_neg (by simp [hbad])]
  | cons m pre' ih =>
    intro hpre hn hbad
    obtain ⟨g, hg, hvalid⟩ := hpre m (List.mem_cons_self m pre')
    rw [List.cons_append]
    unfold resolveAssocFields
    rw [hg]
    dsimp only
    rw [if_pos hvalid, ih (fun x hx => hpre x (List.mem_cons_of_mem m hx)) hn hbad]

/-- The field-resolution loop succeeds on names that all resolve
acceptably, returning the resolved field ids in order. -/
theorem resolveAssocFields_ok (reg : Reg) (cl : Nat) (names : List String)
    (ids : List Nat)
    (h : List.Forall₂ (fun n i => ∃ f,
        (fieldsOf reg cl).find? (fun g => g.name == n) = some f ∧
        f.id = i ∧ validAssocFieldType f.ftype = true) names ids) :
    resolveAssocFields reg cl names = .inl ids := by
  induction h with
  | nil => rfl
  | cons hrel _ ih =>
    obtain ⟨f, hf, hid, hvalid⟩ := hrel
    unfold resolveAssocFields
    rw [hf]
    dsimp only
    rw [if_pos hvalid, ih]
    dsimp only
    rw [hid]

/-- Folding the per-field association-field registration appends the whole
id list to every association entry matching the system and association
id. -/
theorem foldl_addAssocField (s nid : Nat) (ids : List Nat) :
    ∀ r : Reg,
      ids.foldl (fun r fid => addSystemAssocField r s nid fid) r =
        { r with
          assocs := r.assocs.map (fun a =>
            if a.sys == s && a.id == nid then { a with fields := a.fields ++ ids }
            else a) } := by
  induction ids with
  | nil =>
    intro r
    rw [List.foldl_nil]
    have h2 : ∀ a ∈ r.assocs,
        (if a.sys == s && a.id == nid then { a with fields := a.fields ++ ([] : List Nat) }
         else a) = a := by
      intro a _
      by_cases hc : (a.sys == s && a.id == nid) = true
      · rw [if_pos hc]
        simp
      · rw [if_neg hc]
    rw [List.map_congr_left h2]
    simp
  | cons i t ih =>
    intro r
    rw [List.foldl_cons, ih]
    unfold addSystemAssocField
    dsimp only
    rw [List.map_map]
    have h2 : ∀ a ∈ r.assocs,
        ((fun a => if a.sys == s && a.id == nid then { a with fields := a.fields ++ t } else a) ∘
          (fun a => if a.sys == s && a.id == nid then { a with fields := a.fields ++ [i] } else a)) a =
        (if a.sys == s && a.id == nid then { a with fields := a.fields ++ i :: t } else a) := by
      intro a _
      by_cases hc : (a.sys == s && a.id == nid) = true
      · simp only [Function.comp_apply, if_pos hc]
        simp [List.append_assoc]
      · simp only [Function.comp_apply, if_neg hc]
    rw [List.map_congr_left h2]

/-- Adding fields to a fresh association id leaves existing associations
unchanged. -/
theorem map_addFields_fresh (l : List AssocEntry) (s nid : Nat) (ids : List Nat)
    (h : ∀ a ∈ l, a.id ≠ nid) :
    l.map (fun a =>
      if a.sys == s && a.id == nid then { a with fields := a.fields ++ ids } else a) = l := by
  have h2 : ∀ a ∈ l,
      (if a.sys == s && a.id == nid then { a with fields := a.fields ++ ids } else a) = a := by
    intro a ha
    simp [h a ha]
  rw [List.map_congr_left h2]
  simp

/-- C3: the shared association logic (`eval_system_with_statement_data_common`)
reports `UNKNOWN_FIELD_NAME` for the first name that does not resolve on the
component-like, `INVALID_ASSOC_FIELD_TYPE` for the first resolved field
whose type is neither builtin-ENTITY nor field-index,
`UNEXPECTED_STATEMENT` for an empty name list — all without mutating the
registry — and only when every listed name resolves acceptably does it
create exactly one new association carrying exactly the resolved field ids
(hence a non-empty field list). -/
theorem c3_assoc_shared_logic :
    (∀ (reg : Reg) (s cl : Nat),
      evalSystemWithCommon reg s cl [] = (.unexpectedStatement, reg)) ∧
    (∀ (reg : Reg) (s cl : Nat) (pre : List String) (n : String) (post : List String),
      (∀ m ∈ pre, assocNameResolvesOk reg cl m) →
      (fieldsOf reg cl).find? (fun g => g.name == n) = none →
      evalSystemWithCommon reg s cl (pre ++ n :: post) = (.unknownFieldName, reg)) ∧
    (∀ (reg : Reg) (s cl : Nat) (pre : List String) (n : String) (post : List String)
        (f : FieldDecl),
      (∀ m ∈ pre, assocNameResolvesOk reg cl m) →
      (fieldsOf reg cl).find? (fun g => g.name == n) = some f →
      validAssocFieldType f.ftype = false →
      evalSystemWithCommon reg s cl (pre ++ n :: post) = (.invalidAssocFieldType, reg)) ∧
    (∀ (reg : Reg) (s cl : Nat) (names : List String) (ids : List Nat),
      names ≠ [] →
      List.Forall₂ (fun n i => ∃ f,
        (fieldsOf reg cl).find? (fun g => g.name == n) = some f ∧
        f.id = i ∧ validAssocFieldType f.ftype = true) names ids →
      (∀ a ∈ reg.assocs, a.id ≠ reg.nextId) →
      ids ≠ [] ∧
      evalSystemWithCommon reg s cl names =
        (.ok,
         { reg with
           nextId := reg.nextId + 1
           assocs := reg.assocs ++ [⟨s, reg.nextId, cl, ids⟩] })) := by
  refine ⟨?_, ?_, ?_, ?_⟩
  · intro reg s cl
    rfl
  · intro reg s cl pre n post hpre hn
    unfold evalSystemWithCommon
    rw [resolveAssocFields_unknown reg cl n post pre hpre hn]
  · intro reg s cl pre n post f hpre hn hbad
    unfold evalSystemWithCommon
    rw [resolveAssocFields_invalid reg cl n post f pre hpre hn hbad]
  · intro reg s cl names ids hnames hall hfresh
    have hlen : names.length = ids.length := List.Forall₂.length_eq hall
    have hids : ids ≠ [] := by
      intro hnil
      apply hnames
      cases names with
      | nil => rfl
      | cons x xs => rw [hnil] at hlen; simp at hlen
    refine ⟨hids, ?_⟩
    unfold evalSystemWithCommon
    rw [resolveAssocFields_ok reg cl names ids hall]
    dsimp only
    rw [if_neg (by simp [List.isEmpty_iff, hids])]
    unfold addSystemAssoc
    dsimp only
    rw [foldl_addAssocField]
    dsimp only
    rw [List.map_append, map_addFields_fresh reg.assocs s reg.nextId ids hfresh]
    simp

/-- Registry with system `S` (id 1) and component `A` (id 2) carrying an
entity field `x` (id 3) and a non-entity builtin field `z` (id 4), for the
C3 witness. -/
def c3Reg : Reg :=
  { nextId := 5
    packages := [⟨0, "pkg"⟩]
    systems := [⟨0, 1, "S"⟩]
    components := [⟨0, 2, "A", .none⟩]
    fields := [⟨2, 3, "x", .builtin .entity 1⟩, ⟨2, 4, "z", .builtin (.nonEntity 3) 1⟩] }

/-- C3 witnessed concretely: empty list, unknown name, invalid type, and a
successful association on field `x`. -/
theorem c3_assoc_shared_logic_witness :
    evalSystemWithCommon c3Reg 1 2 [] = (.unexpectedStatement, c3Reg) ∧
    evalSystemWithCommon c3Reg 1 2 ([] ++ "y" :: []) = (.unknownFieldName, c3Reg) ∧
    evalSystemWithCommon c3Reg 1 2 ([] ++ "z" :: []) = (.invalidAssocFieldType, c3Reg) ∧
    (([3] : List Nat) ≠ [] ∧
     evalSystemWithCommon c3Reg 1 2 ["x"] =
       (.ok,
        { c3Reg with
          nextId := c3Reg.nextId + 1
          assocs := c3Reg.assocs ++ [⟨1, c3Reg.nextId, 2, [3]⟩] })) :=
  ⟨c3_assoc_shared_logic.1 c3Reg 1 2,
   c3_assoc_shared_logic.2.1 c3Reg 1 2 [] "y" [] (by intro m hm; cases hm) (by decide),
   c3_assoc_shared_logic.2.2.1 c3Reg 1 2 [] "z" [] ⟨2, 4, "z", .builtin (.nonEntity 3) 1⟩
     (by intro m hm; cases hm) (by decide) (by decide),
   c3_assoc_shared_logic.2.2.2 c3Reg 1 2 ["x"] [3] (by decide)
     (List.Forall₂.cons
       ⟨⟨2, 3, "x", .builtin .entity 1⟩, by decide, rfl, by decide⟩
       List.Forall₂.nil)
     (by decide)⟩

/-! Exception-safety theorems (claim C8). -/

/-- Registry with system `S` (id 1), component `A` (id 2, entity field `x`
id 3), component `B` (id 4), and no registered associations. -/
def c8Reg : Reg :=
  { nextId := 5
    packages := [⟨0, "pkg"⟩]
    systems := [⟨0, 1, "S"⟩]
    components := [⟨0, 2, "A", .none⟩, ⟨0, 4, "B", .none⟩]
    fields := [⟨2, 3, "x", .builtin .entity 1⟩] }

/-- System context statement naming `S`, for the C8 theorems. -/
def c8SysStmt : Statement := { type := .system, name := "S" }

/-- Parent capability statement `readwrite A with x`, whose with-field list
matches no registered association of `S`. -/
def c8ParentStmt : Statement :=
  { type := .systemComponent, name := "A", withFieldNames := ["x"] }

/-- Nested capability statement `readwrite B`, for the C8 theorems. -/
def c8CurStmt : Statement := { type := .systemComponent, name := "B" }

/-- C8 counterexample: on a driver-supplied stack whose parent
`SYSTEM_COMPONENT` statement carries a with-field list matching no
association registered on the system-like, `ecsact_eval_statement` does
not return an `ecsact_eval_error` value — the association-id lookup calls
`assoc_ids.at(0)` on an empty vector, which throws (`crash` outcome). -/
theorem c8_counterexample :
    ecsactEvalStatement c8Reg 0 [c8SysStmt, c8ParentStmt, c8CurStmt] = .crash := by
  decide

/-- C8 amended: for stacks of the shape `[system-like, parent
SYSTEM_COMPONENT with non-empty with-field list, SYSTEM_COMPONENT]` with
resolvable names and no parameters, whether `ecsact_eval_statement`
returns an error value is decided by the association-by-fields lookup: no
matching association throws instead of returning an error; a unique match
returns an error value; several matches return
`SAME_FIELDS_SYSTEM_ASSOCIATION`. -/
theorem c8_amended (reg : Reg) (pkg : Nat) (sysStmt parentStmt stmt : Statement)
    (s assocComp compLike : Nat)
    (hparentType : parentStmt.type = .systemComponent)
    (hstmtType : stmt.type = .systemComponent)
    (hparams : stmt.params = [])
    (hwfn : stmt.withFieldNames = [])
    (hcomp : findComponentLikeIdByName reg pkg stmt.name = some compLike)
    (hsys : findSystemLikeIdByStatement reg pkg sysStmt = some s)
    (hassoc : findComponentLikeIdByStatement reg pkg parentStmt = some assocComp)
    (hpwfn : parentStmt.withFieldNames ≠ []) :
    (findAssocIdsWithFields reg s assocComp parentStmt.withFieldNames = [] →
      ecsactEvalStatement reg pkg [sysStmt, parentStmt, stmt] = .crash) ∧
    (∀ a : Nat, findAssocIdsWithFields reg s assocComp parentStmt.withFieldNames = [a] →
      ∃ (e : EvalErrCode) (regOut : Reg),
        ecsactEvalStatement reg pkg [sysStmt, parentStmt, stmt] = .ret e regOut) ∧
    ((findAssocIdsWithFields reg s assocComp parentStmt.withFieldNames).length > 1 →
      ecsactEvalStatement reg pkg [sysStmt, parentStmt, stmt] =
        .ret .sameFieldsSystemAssociation reg) := by
  have hev : ecsactEvalStatement reg pkg [sysStmt, parentStmt, stmt] =
      evalSystemComponentStatement reg pkg [sysStmt, parentStmt] stmt := by
    unfold ecsactEvalStatement
    rw [show ([sysStmt, parentStmt, stmt] : List Statement).getLast? = some stmt from rfl]
    dsimp only
    rw [show ([sysStmt, parentStmt, stmt] : List Statement).dropLast =
      [sysStmt, parentStmt] from rfl]
    rw [hstmtType]
  have hmem :
      ([.system, .action, .systemComponent, .systemWith] : List StmtType).contains
        parentStmt.type = true := by
    rw [hparentType]; decide
  have hmain : ∀ out : ScBranchOut,
      scBranch reg pkg [sysStmt, parentStmt] parentStmt stmt = out →
      ecsactEvalStatement reg pkg [sysStmt, parentStmt, stmt] =
        (match out with
         | .fail e => .ret e reg
         | .broke => .crash
         | .proceed none _ => .ret .invalidContext reg
         | .proceed (some sl) aid =>
             .ret (scFinish reg stmt compLike sl aid).1
               (scFinish reg stmt compLike sl aid).2) := by
    intro out hout
    rw [hev]
    unfold evalSystemComponentStatement
    rw [expectContext_pass [sysStmt, parentStmt] _ parentStmt rfl hmem]
    dsimp only
    rw [disallowStatementParams_empty stmt hparams]
    dsimp only
    rw [hcomp]
    dsimp only
    rw [hout]
    cases out with
    | fail e => rfl
    | broke => rfl
    | proceed sl aid => cases sl <;> rfl
  have hscb : scBranch reg pkg [sysStmt, parentStmt] parentStmt stmt =
      (if (findAssocIdsWithFields reg s assocComp parentStmt.withFieldNames).length > 1
       then .fail .sameFieldsSystemAssociation
       else
         match findAssocIdsWithFields reg s assocComp parentStmt.withFieldNames with
         | [] => .broke
         | a :: _ => .proceed (some s) (some a)) := by
    unfold scBranch
    rw [hparentType]
    dsimp only
    rw [if_neg (by simp : ¬([sysStmt, parentStmt] : List Statement).length < 2)]
    rw [show ([sysStmt, parentStmt] : List Statement).getD
      (([sysStmt, parentStmt] : List Statement).length - 2) default = sysStmt from rfl]
    rw [hsys]
    dsimp only
    rw [if_neg (by rw [hwfn]; decide : ¬(!stmt.withFieldNames.isEmpty) = true)]
    rw [hassoc]
    dsimp only
    rw [if_neg (by simp [List.isEmpty_iff, hpwfn] :
      ¬parentStmt.withFieldNames.isEmpty = true)]
  refine ⟨?_, ?_, ?_⟩
  · intro hempty
    have h1 : scBranch reg pkg [sysStmt, parentStmt] parentStmt stmt = .broke := by
      rw [hscb, hempty]
      rfl
    exact hmain .broke h1
  · intro a hone
    have h1 : scBranch reg pkg [sysStmt, parentStmt] parentStmt stmt =
        .proceed (some s) (some a) := by
      rw [hscb, hone]
      rfl
    exact ⟨_, _, hmain (.proceed (some s) (some a)) h1⟩
  · intro hmany
    have h1 : scBranch reg pkg [sysStmt, parentStmt] parentStmt stmt =
        .fail .sameFieldsSystemAssociation := by
      rw [hscb]
      rw [if_pos hmany]
    exact hmain (.fail .sameFieldsSystemAssociation) h1

/-- C8 amended, witnessed at the concrete registry `c8Reg` where the
lookup finds no matching association and evaluation crashes. -/
theorem c8_amended_witness :
    findAssocIdsWithFields c8Reg 1 2 c8ParentStmt.withFieldNames = [] ∧
      ecsactEvalStatement c8Reg 0 [c8SysStmt, c8ParentStmt, c8CurStmt] = .crash :=
  ⟨by decide,
   (c8_amended c8Reg 0 c8SysStmt c8ParentStmt c8CurStmt 1 2 4
     (by decide) (by decide) (by decide) (by decide) (by decide) (by decide)
     (by decide) (by decide)).1 (by decide)⟩

end EcsactEval
